import Mathlib

/-!
Verification development for the Polymarket-Algo trading system.

Shallow embedding of the Python modules the specification's claims concern:
`02_indicators.py`, `06_regime_filter.py`, `07_overreaction_detector.py`
(time-based variant under `Polymarket/`), `08_position_sizer.py`,
`09_risk_manager.py` and `10_exit_manager.py`.

Modelling conventions:
- Python floats are modelled as exact rationals (`ℚ`); `np.std`, the one
  genuinely irrational computation, is modelled over `ℝ` with `Real.sqrt`.
- Timestamps are UTC unix seconds as `ℚ`; the ISO-string parsing layer of the
  source is treated as input normalisation and trades carry already-parsed
  optional fields, mirroring `_get_trade_price_size_ts`.
- Python dicts returned by the functions are modelled as structures; reason
  strings whose content is pure number formatting are modelled as inductive
  tags carrying the formatted values.
- Python `sorted` is modelled by a stable insertion sort (identical output on
  rational values).
-/

namespace Indicators

/-- `np.diff`: consecutive differences of a price list. -/
def diffs : List ℚ → List ℚ
  | [] => []
  | [_] => []
  | a :: rest@(b :: _) => (b - a) :: diffs rest

/-- `np.mean` of a rational list (`0` on the empty list, where numpy would
produce NaN; no claim touches that case). -/
def mean (l : List ℚ) : ℚ := l.sum / l.length

/-- Python `l[-n:]` for positive `n`: the last `n` elements. -/
def lastN (n : ℕ) (l : List α) : List α := l.drop (l.length - n)

/-- `calculate_atr` from `02_indicators.py`, scalar-price branch
(`highs = lows = closes = prices`). -/
def calculate_atr (prices : List ℚ) (period : ℕ) : ℚ :=
  if prices.length < period then 0
  else
    let closes := prices
    let highs := closes
    let lows := closes
    let high_low := List.zipWith (fun a b => a - b) highs lows
    let high_close := high_low.headD 0 :: List.zipWith (fun a b => |a - b|) highs.tail closes.dropLast
    let low_close := high_low.headD 0 :: List.zipWith (fun a b => |a - b|) lows.tail closes.dropLast
    let true_range := List.zipWith max high_low (List.zipWith max high_close low_close)
    let atr := mean (lastN period true_range)
    let current_price := closes.getLastD 0
    if current_price > 0 then atr / current_price else 0

/-- `calculate_bollinger_bands` from `02_indicators.py`.  Returns
`(upper, lower, middle)`.  `np.std` is the population standard deviation,
modelled with `Real.sqrt`. -/
noncomputable def calculate_bollinger_bands (prices : List ℚ) (period : ℕ) (std_dev : ℚ) :
    ℝ × ℝ × ℝ :=
  if prices.length < period then (0, 0, 0)
  else
    let window := lastN period prices
    let middle_band := mean window
    let var := mean (window.map (fun p => (p - middle_band) ^ 2))
    let std : ℝ := Real.sqrt (var : ℝ)
    ((middle_band : ℝ) + (std_dev : ℝ) * std, (middle_band : ℝ) - (std_dev : ℝ) * std,
      (middle_band : ℝ))

/-- `calculate_rsi` from `02_indicators.py`. -/
def calculate_rsi (prices : List ℚ) (period : ℕ) : ℚ :=
  if prices.length < period + 1 then 50
  else
    let deltas := diffs prices
    let gains := deltas.map (fun d => if d > 0 then d else 0)
    let losses := deltas.map (fun d => if d < 0 then -d else 0)
    let avg_gain := mean (lastN period gains)
    let avg_loss := mean (lastN period losses)
    if avg_loss = 0 then 100
    else
      let rs := avg_gain / avg_loss
      100 - 100 / (1 + rs)

end Indicators

namespace RiskManager

/-- An open position; only `token_id` is inspected by the risk manager. -/
structure Position where
  token_id : String
  deriving Repr, DecidableEq

/-- Reasons the circuit breakers pause trading (the source formats these as
f-strings; the numeric payload is omitted here). -/
inductive PauseReason
  | dailyLoss
  | consecutiveLosses
  | lowWinRate
  deriving Repr, DecidableEq

/-- The mutable state of `RiskManager` from `09_risk_manager.py`. -/
structure RiskState where
  starting_bankroll : ℚ
  current_bankroll : ℚ
  daily_loss_limit_pct : ℚ
  max_concurrent : ℕ
  max_consecutive_losses : ℕ
  min_win_rate : ℚ
  min_trades_for_wr : ℕ
  open_positions : List Position
  today_start_bankroll : ℚ
  today_pnl : ℚ
  consecutive_losses : ℕ
  trade_history : List Bool
  trading_paused : Bool
  pause_reason : Option PauseReason
  deriving Repr, DecidableEq

/-- `RiskManager.__init__` with the module's default limits
(5% daily loss, 3 concurrent, 5 consecutive losses, 40% win rate over 20). -/
def initState (starting_bankroll : ℚ) : RiskState :=
  { starting_bankroll := starting_bankroll
    current_bankroll := starting_bankroll
    daily_loss_limit_pct := 5 / 100
    max_concurrent := 3
    max_consecutive_losses := 5
    min_win_rate := 40 / 100
    min_trades_for_wr := 20
    open_positions := []
    today_start_bankroll := starting_bankroll
    today_pnl := 0
    consecutive_losses := 0
    trade_history := []
    trading_paused := false
    pause_reason := none }

/-- `self.today_start_bankroll * self.daily_loss_limit_pct`. -/
def dailyLossLimit (s : RiskState) : ℚ := s.today_start_bankroll * s.daily_loss_limit_pct

/-- Observed win rate `wins / len(trade_history)`. -/
def winRate (s : RiskState) : ℚ := (s.trade_history.count true : ℚ) / s.trade_history.length

/-- The individual check results of `can_open_position` (`checks` dict). -/
structure Checks where
  daily_loss : Bool
  concurrent_positions : Bool
  consecutive : Bool
  win_rate : Bool
  position_size : Bool
  deriving Repr, DecidableEq

/-- The return value of `can_open_position`; `checks` is `none` on the
early `trading_paused` return (the source returns an empty dict there). -/
structure OpenDecision where
  allowed : Bool
  checks : Option Checks
  deriving Repr, DecidableEq

/-- `RiskManager.can_open_position`. -/
def can_open_position (s : RiskState) (position_size : ℚ) : OpenDecision :=
  if s.trading_paused then { allowed := false, checks := none }
  else
    let daily_pass : Bool := ¬ (s.today_pnl ≤ -(dailyLossLimit s))
    let concurrent_pass : Bool := s.open_positions.length < s.max_concurrent
    let consecutive_pass : Bool := s.consecutive_losses < s.max_consecutive_losses
    let win_rate_pass : Bool :=
      if s.min_trades_for_wr ≤ s.trade_history.length then
        ¬ (winRate s < s.min_win_rate)
      else true
    let size_pass : Bool := ¬ (position_size > s.current_bankroll * (1 / 2))
    let all_pass := daily_pass && concurrent_pass && consecutive_pass && win_rate_pass && size_pass
    { allowed := all_pass
      checks := some
        { daily_loss := daily_pass
          concurrent_positions := concurrent_pass
          consecutive := consecutive_pass
          win_rate := win_rate_pass
          position_size := size_pass } }

/-- `RiskManager.open_position`. -/
def open_position (s : RiskState) (p : Position) : RiskState :=
  { s with open_positions := s.open_positions ++ [p] }

/-- `RiskManager._check_circuit_breakers`. -/
def check_circuit_breakers (s : RiskState) : RiskState :=
  if s.today_pnl ≤ -(dailyLossLimit s) then
    { s with trading_paused := true, pause_reason := some .dailyLoss }
  else if s.max_consecutive_losses ≤ s.consecutive_losses then
    { s with trading_paused := true, pause_reason := some .consecutiveLosses }
  else if s.min_trades_for_wr ≤ s.trade_history.length ∧ winRate s < s.min_win_rate then
    { s with trading_paused := true, pause_reason := some .lowWinRate }
  else s

/-- `RiskManager.close_position`. -/
def close_position (s : RiskState) (token_id : String) (pnl : ℚ) : RiskState :=
  let is_win : Bool := pnl > 0
  let s1 : RiskState :=
    { s with
      open_positions := s.open_positions.filter (fun p => p.token_id ≠ token_id)
      today_pnl := s.today_pnl + pnl
      current_bankroll := s.current_bankroll + pnl
      trade_history := s.trade_history ++ [is_win]
      consecutive_losses := if is_win then 0 else s.consecutive_losses + 1 }
  check_circuit_breakers s1

/-- `RiskManager.reset_daily`. -/
def reset_daily (s : RiskState) : RiskState :=
  { s with
    today_start_bankroll := s.current_bankroll
    today_pnl := 0
    trading_paused := false
    pause_reason := none }

end RiskManager

namespace PositionSizer

/-- The three hard caps of `calculate_size`, in the order the source applies
them; entries of the `caps_applied` list. -/
inductive Cap
  | bankroll
  | depth
  | maxTrade
  deriving Repr, DecidableEq

/-- Structure of the `reasoning` string: either the below-minimum message
with the rejected size, or the joined parts `Kelly | [Regime adj] | Caps`. -/
inductive Reasoning
  | belowMin (adjusted : ℚ)
  | parts (kelly : ℚ) (regime_adj : Option ℚ) (caps : List Cap)
  deriving Repr, DecidableEq

/-- Constructor parameters of `PositionSizer`. -/
structure SizerConfig where
  bankroll : ℚ
  max_position_pct : ℚ
  kelly_fraction : ℚ
  max_depth_pct : ℚ
  min_trade_size : ℚ
  max_trade_size : ℚ
  deriving Repr, DecidableEq

/-- The module defaults: 2% bankroll, 1/4 Kelly, 5% depth, $10 min, $200 max. -/
def defaultSizer (bankroll : ℚ) : SizerConfig :=
  { bankroll := bankroll
    max_position_pct := 2 / 100
    kelly_fraction := 1 / 4
    max_depth_pct := 5 / 100
    min_trade_size := 10
    max_trade_size := 200 }

/-- The dict returned by `calculate_size`. -/
structure SizeResult where
  size : ℚ
  final_size : ℚ
  tradeable : Bool
  reasoning : Reasoning
  kelly_size : ℚ
  size_pct_bankroll : ℚ
  size_pct_depth : ℚ
  caps_applied : List Cap
  deriving Repr, DecidableEq

/-- `PositionSizer.calculate_size`. -/
def calculate_size (cfg : SizerConfig) (edge confidence market_depth : ℚ)
    (regime_score : Option ℚ) : SizeResult :=
  let variance : ℚ := 1 / 2
  let kelly_fraction_calc := edge * confidence / variance
  let fractional_kelly := kelly_fraction_calc * cfg.kelly_fraction
  let kelly_size := cfg.bankroll * fractional_kelly
  let regime_multiplier : ℚ := match regime_score with | some r => r | none => 1
  let adjusted0 := kelly_size * regime_multiplier
  let max_bankroll_size := cfg.bankroll * cfg.max_position_pct
  let a1 := if adjusted0 > max_bankroll_size then max_bankroll_size else adjusted0
  let caps1 : List Cap := if adjusted0 > max_bankroll_size then [.bankroll] else []
  let max_depth_size := market_depth * cfg.max_depth_pct
  let a2 := if a1 > max_depth_size then max_depth_size else a1
  let caps2 := caps1 ++ (if a1 > max_depth_size then [.depth] else [])
  let a3 := if a2 > cfg.max_trade_size then cfg.max_trade_size else a2
  let caps3 := caps2 ++ (if a2 > cfg.max_trade_size then [.maxTrade] else [])
  if a3 < cfg.min_trade_size then
    { size := 0
      final_size := 0
      tradeable := false
      reasoning := .belowMin a3
      kelly_size := kelly_size
      size_pct_bankroll := 0
      size_pct_depth := 0
      caps_applied := caps3 }
  else
    { size := a3
      final_size := a3
      tradeable := true
      reasoning := .parts kelly_size
        (match regime_score with
          | some r => if r < 1 then some r else none
          | none => none) caps3
      kelly_size := kelly_size
      size_pct_bankroll := a3 / cfg.bankroll * 100
      size_pct_depth := if market_depth > 0 then a3 / market_depth * 100 else 0
      caps_applied := caps3 }

/-- Raw Kelly dollar size before regime adjustment and caps (declarative
restatement of steps 1 of `calculate_size`, used in theorem statements). -/
def kellySize (cfg : SizerConfig) (edge confidence : ℚ) : ℚ :=
  cfg.bankroll * (edge * confidence / (1 / 2) * cfg.kelly_fraction)

/-- The regime multiplier (`regime_score` when given, else `1`). -/
def regimeMult (regime_score : Option ℚ) : ℚ :=
  match regime_score with | some r => r | none => 1

/-- Kelly size after the regime adjustment, before the caps. -/
def adjustedSize (cfg : SizerConfig) (edge confidence : ℚ) (regime_score : Option ℚ) : ℚ :=
  kellySize cfg edge confidence * regimeMult regime_score

/-- Declarative form of the three sequential caps: the minimum of the
adjusted size, the bankroll cap, the depth cap and the absolute cap. -/
def cappedSize (cfg : SizerConfig) (edge confidence market_depth : ℚ)
    (regime_score : Option ℚ) : ℚ :=
  min (min (min (adjustedSize cfg edge confidence regime_score)
    (cfg.bankroll * cfg.max_position_pct)) (market_depth * cfg.max_depth_pct))
    cfg.max_trade_size

end PositionSizer

namespace ExitManager

/-- Constructor parameters of `ExitManager` from `10_exit_manager.py`. -/
structure ExitConfig where
  stop_loss_pct : ℚ
  take_profit_pct : ℚ
  mean_reversion_threshold : ℚ
  max_hold_seconds : ℚ
  regime_break_atr : ℚ
  deriving Repr, DecidableEq

/-- The module defaults (`STOP_LOSS_PCT = 0.06`, `TAKE_PROFIT_PCT = 0.04`,
`MEAN_REVERSION_THRESHOLD = 0.04`, `MAX_HOLD_TIME_SECONDS = 480`,
`REGIME_BREAK_ATR = 0.035`). -/
def defaultExit : ExitConfig :=
  { stop_loss_pct := 6 / 100
    take_profit_pct := 4 / 100
    mean_reversion_threshold := 4 / 100
    max_hold_seconds := 480
    regime_break_atr := 35 / 1000 }

/-- The position dict fields `check_exit` reads; `entry_time` is `none` when
the stored value is not a datetime (the source then uses hold time 0). -/
structure EPosition where
  entry_price : ℚ
  entry_time : Option ℚ
  side : String
  size : ℚ
  deriving Repr, DecidableEq

/-- The decision-list reasons of `check_exit`, with their formatted payloads. -/
inductive ExitReason
  | stopLoss (pnl_pct : ℚ)
  | takeProfit (pnl_pct : ℚ)
  | maxTime (hold_minutes : ℚ)
  | meanReversion (price : ℚ)
  | regimeBreak (atr : ℚ)
  | timePressure (minutes_left : ℚ) (pnl_pct : ℚ)
  deriving Repr, DecidableEq

/-- The dict returned by `check_exit`. -/
structure ExitCheck where
  should_exit : Bool
  reason : Option ExitReason
  priority : Option ℕ
  pnl : ℚ
  pnl_pct : ℚ
  exit_price : Option ℚ
  hold_time_seconds : Option ℚ
  time_remaining_seconds : Option ℚ
  deriving Repr, DecidableEq

/-- PnL percentage of a position at `current_price` (sign depends on side). -/
def pnlPct (pos : EPosition) (current_price : ℚ) : ℚ :=
  if pos.side = "BUY" then
    if pos.entry_price > 0 then (current_price - pos.entry_price) / pos.entry_price else 0
  else
    if pos.entry_price > 0 then (pos.entry_price - current_price) / pos.entry_price else 0

/-- Hold time in seconds (`0` when `entry_time` is not a datetime). -/
def holdTime (pos : EPosition) (current_time : ℚ) : ℚ :=
  match pos.entry_time with
  | some t => current_time - t
  | none => 0

/-- `ExitManager.check_exit`: the ordered decision list. -/
def check_exit (cfg : ExitConfig) (pos : EPosition) (current_price current_time : ℚ)
    (btc_atr : Option ℚ) : ExitCheck :=
  let pp := pnlPct pos current_price
  let pnl := pp * pos.size
  let hold_time_seconds := holdTime pos current_time
  if pp ≤ -cfg.stop_loss_pct then
    { should_exit := true, reason := some (.stopLoss pp), priority := some 1
      pnl := pnl, pnl_pct := pp, exit_price := some current_price
      hold_time_seconds := none, time_remaining_seconds := none }
  else if pp ≥ cfg.take_profit_pct then
    { should_exit := true, reason := some (.takeProfit pp), priority := some 1
      pnl := pnl, pnl_pct := pp, exit_price := some current_price
      hold_time_seconds := none, time_remaining_seconds := none }
  else if hold_time_seconds ≥ cfg.max_hold_seconds then
    { should_exit := true, reason := some (.maxTime (hold_time_seconds / 60)), priority := some 1
      pnl := pnl, pnl_pct := pp, exit_price := some current_price
      hold_time_seconds := none, time_remaining_seconds := none }
  else if |current_price - 1 / 2| ≤ cfg.mean_reversion_threshold ∧ pp > 0 then
    { should_exit := true, reason := some (.meanReversion current_price), priority := some 2
      pnl := pnl, pnl_pct := pp, exit_price := some current_price
      hold_time_seconds := none, time_remaining_seconds := none }
  else if (match btc_atr with | some a => decide (a > cfg.regime_break_atr) | none => false) then
    { should_exit := true
      reason := some (.regimeBreak (match btc_atr with | some a => a | none => 0))
      priority := some 2
      pnl := pnl, pnl_pct := pp, exit_price := some current_price
      hold_time_seconds := none, time_remaining_seconds := none }
  else
    let time_remaining := cfg.max_hold_seconds - hold_time_seconds
    if time_remaining < 120 ∧ pp > 1 / 100 then
      { should_exit := true, reason := some (.timePressure (time_remaining / 60) pp)
        priority := some 3
        pnl := pnl, pnl_pct := pp, exit_price := some current_price
        hold_time_seconds := none, time_remaining_seconds := none }
    else
      { should_exit := false, reason := none, priority := none
        pnl := pnl, pnl_pct := pp, exit_price := none
        hold_time_seconds := some hold_time_seconds
        time_remaining_seconds := some time_remaining }

end ExitManager

namespace RegimeFilter

/-- One level of a raw order book (`bids[i]` / `asks[i]` dicts); a missing
`price` key is `none`, a missing `size` key reads as `0`. -/
structure Level where
  price : Option ℚ
  size : ℚ
  deriving Repr, DecidableEq

/-- A raw order book dict as consumed by the regime filter; `none` fields
model absent keys. -/
structure Book where
  best_bid : Option ℚ
  best_ask : Option ℚ
  bids : List Level
  asks : List Level
  bid_depth : Option ℚ
  ask_depth : Option ℚ
  deriving Repr, DecidableEq

/-- `_normalize_price_0_1`: keep `0..1`, treat `1..100` as cents, pass the
rest through. -/
def normalizePrice : Option ℚ → Option ℚ
  | none => none
  | some p =>
      if 0 ≤ p ∧ p ≤ 1 then some p
      else if 1 < p ∧ p ≤ 100 then some (p / 100)
      else some p

/-- `_best_bid_ask_from_book`: prefer `best_bid`/`best_ask`, else the first
level's price, then normalize both. -/
def bestBidAsk (book : Book) : Option ℚ × Option ℚ :=
  let bid := match book.best_bid with
    | some b => some b
    | none => match book.bids with | [] => none | l :: _ => l.price
  let ask := match book.best_ask with
    | some a => some a
    | none => match book.asks with | [] => none | l :: _ => l.price
  (normalizePrice bid, normalizePrice ask)

/-- The dict computed by `_compute_spreads`. -/
structure Spreads where
  spread_abs : Option ℚ
  spread_rel : Option ℚ
  mid : Option ℚ
  bid : Option ℚ
  ask : Option ℚ
  deriving Repr, DecidableEq

/-- `_compute_spreads`: `none` everywhere when a side is missing or the book
is crossed (`ask < bid`); else absolute spread, mid, and relative spread. -/
def computeSpreads (book : Book) : Spreads :=
  let ba := bestBidAsk book
  match ba.1, ba.2 with
  | some bid, some ask =>
      if ask < bid then
        { spread_abs := none, spread_rel := none, mid := none, bid := some bid, ask := some ask }
      else
        let spread_abs := max 0 (ask - bid)
        let mid := (ask + bid) / 2
        let spread_rel := if mid > 0 then some (spread_abs / mid) else none
        { spread_abs := some spread_abs, spread_rel := spread_rel, mid := some mid
          bid := some bid, ask := some ask }
  | b, a => { spread_abs := none, spread_rel := none, mid := none, bid := b, ask := a }

/-- A Gamma market dict after `_get_token_ids_and_outcomes`-style parsing. -/
structure Market where
  token_ids : List String
  outcomes : List String
  slug : Option String
  deriving Repr, DecidableEq

/-- One candidate entry of `_pick_tradable_outcome`; `bid_depth`/`ask_depth`
are only filled when a book was fetched, as in the source. -/
structure Candidate where
  token_id : String
  label : String
  book : Option Book
  mid : Option ℚ
  sp : Option Spreads
  bid_depth : Option ℚ
  ask_depth : Option ℚ
  deriving Repr, DecidableEq

/-- The dict returned by `_pick_tradable_outcome`. -/
structure PickedOutcome where
  selected : Option Candidate
  other : Option Candidate
  market_slug : Option String
  deriving Repr, DecidableEq

/-- `RegimeFilter._pick_tradable_outcome`, with the client's
`get_orderbook` modelled as the function `getBook`. -/
def pick_tradable_outcome (getBook : String → Option Book) (market : Market)
    (target_mid : ℚ) : PickedOutcome :=
  let token_ids := market.token_ids.take 2
  let outcomes := market.outcomes.take 2
  if token_ids.length < 2 then
    { selected := none, other := none, market_slug := market.slug }
  else
    let mkCand : ℕ × String → Candidate := fun it =>
      let label := outcomes.getD it.1 ("Outcome" ++ toString it.1)
      match getBook it.2 with
      | none =>
          { token_id := it.2, label := label, book := none, mid := none, sp := none
            bid_depth := none, ask_depth := none }
      | some book =>
          let sp := computeSpreads book
          { token_id := it.2, label := label, book := some book, mid := sp.mid, sp := some sp
            bid_depth := some (book.bid_depth.getD 0), ask_depth := some (book.ask_depth.getD 0) }
    let candidates := token_ids.enum.map mkCand
    let valid := candidates.filter (fun c => c.mid.isSome)
    match valid with
    | [] =>
        { selected := candidates.head?, other := candidates.get? 1, market_slug := market.slug }
    | v0 :: vrest =>
        let selected := (v0 :: vrest).foldl
          (fun best c =>
            if |c.mid.getD 0 - target_mid| < |best.mid.getD 0 - target_mid| then c else best) v0
        let other := candidates.find? (fun c => c.token_id ≠ selected.token_id)
        { selected := some selected, other := other, market_slug := market.slug }

/-- Configuration of `RegimeFilter` (constructor parameters). -/
structure RegimeConfig where
  max_btc_atr : ℚ
  max_bb_width : ℚ
  max_spread_abs : ℚ
  min_mid_price : ℚ
  max_mid_price : ℚ
  min_balance : ℚ
  max_balance : ℚ
  deriving Repr, DecidableEq

/-- The module default thresholds. -/
def defaultRegime : RegimeConfig :=
  { max_btc_atr := 15 / 1000
    max_bb_width := 2 / 100
    max_spread_abs := 15 / 100
    min_mid_price := 10 / 100
    max_mid_price := 90 / 100
    min_balance := 40 / 100
    max_balance := 60 / 100 }

/-- Result of `check_regime`: the overall flag, the fraction of passed
checks, the pass bit of each of the five checks, and the reason string. -/
structure RegimeResult where
  regime_ok : Bool
  regime_score : ℚ
  btc_vol_pass : Bool
  btc_trend_pass : Bool
  price_zone_pass : Bool
  spread_pass : Bool
  balance_pass : Bool
  reason : Option String
  deriving Repr, DecidableEq

open Classical in
/-- `RegimeFilter.check_regime`: the five checks (BTC ATR, BTC Bollinger
width, mid-price zone, absolute spread, order book balance). -/
noncomputable def check_regime (cfg : RegimeConfig) (btc_prices : List ℚ) (book : Book) :
    RegimeResult :=
  let vol_pass : Bool :=
    if 15 ≤ btc_prices.length then decide (Indicators.calculate_atr btc_prices 15 < cfg.max_btc_atr)
    else true
  let trend_pass : Bool :=
    if 20 ≤ btc_prices.length then
      let bb := Indicators.calculate_bollinger_bands btc_prices 20 2
      let bb_width : ℝ := if bb.2.2 > 0 then (bb.1 - bb.2.1) / bb.2.2 else 0
      if bb_width < (cfg.max_bb_width : ℝ) then true else false
    else true
  let sp := computeSpreads book
  let price_zone_pass : Bool :=
    match sp.mid with
    | some m => decide (cfg.min_mid_price < m ∧ m < cfg.max_mid_price)
    | none => false
  let spread_pass : Bool :=
    match sp.spread_abs with
    | some s => decide (s < cfg.max_spread_abs)
    | none => false
  let bid_depth := book.bid_depth.getD 0
  let ask_depth := book.ask_depth.getD 0
  let total := bid_depth + ask_depth
  let balance_pass : Bool :=
    if total > 0 then
      decide (cfg.min_balance < bid_depth / total ∧ bid_depth / total < cfg.max_balance)
    else false
  let passes := [vol_pass, trend_pass, price_zone_pass, spread_pass, balance_pass]
  let all_pass := passes.all id
  let num_passed := passes.count true
  let failed :=
    (if vol_pass then [] else ["BTC Volatility (ATR)"]) ++
    (if trend_pass then [] else ["BTC Trend (BB Width)"]) ++
    (if price_zone_pass then [] else ["Market Price Zone (mid)"]) ++
    (if spread_pass then [] else ["Polymarket Spread (ABS)"]) ++
    (if balance_pass then [] else ["Orderbook Balance"])
  { regime_ok := all_pass
    regime_score := (num_passed : ℚ) / 5
    btc_vol_pass := vol_pass
    btc_trend_pass := trend_pass
    price_zone_pass := price_zone_pass
    spread_pass := spread_pass
    balance_pass := balance_pass
    reason := if all_pass then none else some ("Failed: " ++ String.intercalate ", " failed) }

/-- The `selected_token` summary attached by `check_regime_market`. -/
structure SelectedToken where
  label : String
  token_id : String
  mid : Option ℚ
  deriving Repr, DecidableEq

/-- The dict returned by `check_regime_market`. -/
structure MarketRegime where
  result : RegimeResult
  selected_token : Option SelectedToken
  market_slug : Option String
  deriving Repr, DecidableEq

/-- Depth fallback used by `check_regime_market` when a book has no
`bid_depth`/`ask_depth` keys: sum of the first five level sizes. -/
def depthFromLevels (levels : List Level) : ℚ :=
  match levels with
  | [] => 0
  | _ => ((levels.take 5).map (fun l => l.size)).sum

/-- `RegimeFilter.check_regime_market`: pick the tradable outcome, fill in
missing depth keys, and run `check_regime`; on a missing selected book, run
the checks on a dummy empty book and append the no-orderbook reason. -/
noncomputable def check_regime_market (cfg : RegimeConfig) (btc_prices : List ℚ)
    (getBook : String → Option Book) (market : Market) : MarketRegime :=
  let picked := pick_tradable_outcome getBook market (1 / 2)
  let failResult : MarketRegime :=
    let dummy_book : Book :=
      { best_bid := none, best_ask := none, bids := [], asks := []
        bid_depth := some 0, ask_depth := some 0 }
    let r := check_regime cfg btc_prices dummy_book
    { result := { r with reason := some ((r.reason.getD "") ++ " | No valid orderbook") }
      selected_token := none
      market_slug := picked.market_slug }
  match picked.selected with
  | none => failResult
  | some sel =>
      match sel.book with
      | none => failResult
      | some book =>
          let book' : Book :=
            { book with
              bid_depth := some (match book.bid_depth with
                | some d => d
                | none => depthFromLevels book.bids)
              ask_depth := some (match book.ask_depth with
                | some d => d
                | none => depthFromLevels book.asks) }
          let r := check_regime cfg btc_prices book'
          { result := r
            selected_token := some
              { label := sel.label, token_id := sel.token_id, mid := sel.mid }
            market_slug := picked.market_slug }

/-- Lower-cased character list of a string (for case-insensitive matching). -/
def lowerChars (s : String) : List Char := s.data.map Char.toLower

/-- Does `pat` occur as a contiguous sub-sequence of `l`? -/
def hasInfix (l pat : List Char) : Bool :=
  match l with
  | [] => pat.isEmpty
  | _ :: t => pat.isPrefixOf l || hasInfix t pat

/-- Case-insensitive substring test, used to state the claims about reason
strings. -/
def containsIC (s pat : String) : Bool := hasInfix (lowerChars s) (lowerChars pat)

end RegimeFilter

namespace Detector

/-- A trade record after `_get_trade_price_size_ts` normalisation: optional
price, size and UTC-seconds timestamp. -/
structure Trade where
  price : Option ℚ
  size : Option ℚ
  ts : Option ℚ
  deriving Repr, DecidableEq

/-- The two order book depths read by the detector
(`orderbook.get("bid_depth", 0)`, already defaulted). -/
structure Depths where
  bid_depth : ℚ
  ask_depth : ℚ
  deriving Repr, DecidableEq

/-- Constructor parameters of the time-based `OverreactionDetector`
(`Polymarket/07_overreaction_detector.py`). -/
structure DetConfig where
  move_window_minutes : ℚ
  min_price_change : ℚ
  btc_move_max : ℚ
  volume_multiplier : ℚ
  min_score : ℕ
  use_rsi : Bool
  deriving Repr, DecidableEq

/-- The module defaults: 5-minute window, 3% move, 0.35% BTC, 1.8x volume,
score 55, RSI on. -/
def defaultDet : DetConfig :=
  { move_window_minutes := 5
    min_price_change := 3 / 100
    btc_move_max := 35 / 10000
    volume_multiplier := 18 / 10
    min_score := 55
    use_rsi := true }

/-- `_window_trades`: trades with a timestamp inside `[start, stop]`. -/
def windowTrades (trades : List Trade) (start stop : ℚ) : List Trade :=
  trades.filter (fun t =>
    match t.ts with
    | some ts => decide (start ≤ ts ∧ ts ≤ stop)
    | none => false)

/-- `_last_trade_before`: the trade with the greatest timestamp at or before
`cutoff` (first of equals, as in the source's strict comparison). -/
def lastTradeBefore (trades : List Trade) (cutoff : ℚ) : Option Trade :=
  trades.foldl
    (fun best t =>
      match t.ts with
      | none => best
      | some ts =>
          if ts > cutoff then best
          else
            match best with
            | none => some t
            | some b =>
                match b.ts with
                | some bts => if ts > bts then some t else best
                | none => some t) none

/-- The reference price of the sharp-move gate: price of the last trade at or
before the cutoff, falling back to the first trade's price. -/
def refPrice (cfg : DetConfig) (now : ℚ) (trades : List Trade) : Option ℚ :=
  let cutoff := now - cfg.move_window_minutes * 60
  match (lastTradeBefore trades cutoff).bind (fun t => t.price) with
  | some p => some p
  | none => trades.head?.bind (fun t => t.price)

/-- The current price actually analysed: the argument when present, else the
last trade's price. -/
def resolvedCurrent (current_price : Option ℚ) (trades : List Trade) : Option ℚ :=
  match current_price with
  | some p => some p
  | none => trades.getLast?.bind (fun t => t.price)

/-- Sharp-move score: `35 + min(15, int((abs_move - min_change)/0.01) * 3)`,
then capped at 50. -/
def sharpScore (cfg : DetConfig) (abs_move : ℚ) : ℕ :=
  min (35 + min 15 (3 * (⌊(abs_move - cfg.min_price_change) / (1 / 100)⌋).toNat)) 50

/-- BTC-mismatch predicate: BTC reported and `|change| ≤ btc_move_max`. -/
def btcMismatch (cfg : DetConfig) (btc_change : Option ℚ) : Bool :=
  match btc_change with
  | some b => decide (|b| ≤ cfg.btc_move_max)
  | none => false

/-- BTC-mismatch bonus score (20 when mismatch). -/
def btcScore (cfg : DetConfig) (btc_change : Option ℚ) : ℕ :=
  if btcMismatch cfg btc_change then 20 else 0

/-- Trade notional `price * size` (skipped when either is missing). -/
def notional (t : Trade) : Option ℚ :=
  match t.price, t.size with
  | some p, some s => some (p * s)
  | _, _ => none

/-- Stable insertion into an ascending list (for Python `sorted`). -/
def insertSorted (x : ℚ) : List ℚ → List ℚ
  | [] => [x]
  | y :: ys => if x ≤ y then x :: y :: ys else y :: insertSorted x ys

/-- Python `sorted` on rationals. -/
def sortAsc (l : List ℚ) : List ℚ := l.foldr insertSorted []

/-- The trades the retail and RSI stats run on: the trades of the move
window, or the last 20 trades when the window has fewer than 8. -/
def windowTradesUsed (cfg : DetConfig) (now : ℚ) (trades : List Trade) : List Trade :=
  let cutoff := now - cfg.move_window_minutes * 60
  let w := windowTrades trades cutoff now
  if w.length < 8 then Indicators.lastN 20 trades else w

/-- Retail-panic bonus: median notional ≤ $40 and mean ≤ $60, or ≥ 60% of
trades small; worth 15. -/
def retailScore (window : List Trade) : ℕ :=
  let notionals := window.filterMap notional
  let small_flags : List ℕ := notionals.map (fun n => if n ≤ 40 then 1 else 0)
  match notionals with
  | [] => 0
  | _ =>
      let notionals_sorted := sortAsc notionals
      let n := notionals_sorted.length
      let med_notional := notionals_sorted.getD (n / 2) 0
      let mean_notional := notionals_sorted.sum / n
      let small_frac : ℚ := (small_flags.sum : ℚ) / small_flags.length
      if (med_notional ≤ 40 ∧ mean_notional ≤ 60) ∨ small_frac ≥ 60 / 100 then 15 else 0

/-- Total notional of a trade slice. -/
def sumNotional (trades : List Trade) : ℚ := (trades.filterMap notional).sum

/-- Volume-spike bonus: last 2 minutes vs the prior 10-to-2-minute baseline,
normalised per minute; worth 15 at ≥ `volume_multiplier`. -/
def volScore (cfg : DetConfig) (now : ℚ) (trades : List Trade) : ℕ :=
  let recent_slice := windowTrades trades (now - 2 * 60) now
  let base_slice := windowTrades trades (now - 10 * 60) (now - 2 * 60)
  let recent_notional := sumNotional recent_slice
  let base_notional := sumNotional base_slice
  if base_notional > 0 then
    let base_per_min := base_notional / max (1 / 1000000000) ((10 : ℚ) - 2)
    let expected_recent := base_per_min * 2
    let vol_ratio_val : Option ℚ :=
      if expected_recent > 0 then some (recent_notional / expected_recent) else none
    match vol_ratio_val with
    | some r => if r ≥ cfg.volume_multiplier then 15 else 0
    | none => 0
  else 0

/-- Order book imbalance bonus: `bid/(bid+ask)` outside `[0.25, 0.75]`;
worth 10. -/
def obScore (depths : Depths) : ℕ :=
  let total := depths.bid_depth + depths.ask_depth
  if total > 0 then
    let imb := depths.bid_depth / total
    if imb ≥ 75 / 100 ∨ imb ≤ 1 - 75 / 100 then 10 else 0
  else 0

/-- RSI bonus: every 3rd window-trade price (falling back to the last ≥ 30
recent prices when too few), RSI(14) outside `[30, 70]`; worth 10. -/
def rsiScoreOf (cfg : DetConfig) (window : List Trade) (recent_prices : List ℚ) : ℕ :=
  if cfg.use_rsi then
    let prices_sampled := (window.enum.filterMap (fun it =>
      if it.1 % 3 = 0 then it.2.price else none))
    let prices_for :=
      if prices_sampled.length < 14 + 2 ∧ recent_prices ≠ [] then
        Indicators.lastN (max 30 (14 + 5)) recent_prices
      else prices_sampled
    if 14 + 1 ≤ prices_for.length then
      let rsi_val := Indicators.calculate_rsi prices_for 14
      if rsi_val ≤ 30 ∨ rsi_val ≥ 70 then 10 else 0
    else 0
  else 0

/-- The signal dict emitted by `detect`, with the per-component scores of its
`signals` breakdown flattened into fields. -/
structure Signal where
  action : String
  fade_direction : String
  recommended_outcome : Option String
  confidence : ℕ
  score : ℕ
  expected_edge : ℚ
  current_price : ℚ
  price_change : ℚ
  sharp_score : ℕ
  btc_bonus : ℕ
  retail_bonus : ℕ
  vol_bonus : ℕ
  ob_bonus : ℕ
  rsi_bonus : ℕ
  deriving Repr, DecidableEq

/-- Python `str.strip` (ASCII whitespace, as the labels here contain). -/
def pyStrip (s : String) : String :=
  let ws : Char → Bool := fun c => c = ' ' ∨ c = '\t' ∨ c = '\n' ∨ c = '\r'
  String.mk (((s.data.dropWhile ws).reverse.dropWhile ws).reverse)

/-- Python `str.lower` on the ASCII labels involved. -/
def pyLower (s : String) : String := String.mk (s.data.map Char.toLower)

/-- The binary-aware `recommended_outcome` computation of `detect`: the
complement of the recognised outcome label, branching on the fade direction
exactly as the source does. -/
def recommendedOutcome (fade_direction : String) (outcome_label : Option String) :
    Option String :=
  match outcome_label with
  | none => none
  | some l =>
      if l = "" then none
      else
        let lab := pyLower (pyStrip l)
        if fade_direction = "FADE_UP" then
          if lab = "up" ∨ lab = "yes" then some (if lab = "up" then "Down" else "No")
          else if lab = "down" ∨ lab = "no" then some (if lab = "down" then "Up" else "Yes")
          else none
        else
          if lab = "up" ∨ lab = "yes" then some (if lab = "up" then "Down" else "No")
          else if lab = "down" ∨ lab = "no" then some (if lab = "down" then "Up" else "Yes")
          else none

/-- `OverreactionDetector.detect` (time-based variant), at UTC time `now`. -/
def detect (cfg : DetConfig) (now : ℚ) (current_price : Option ℚ)
    (recent_prices : List ℚ) (recent_trades : List Trade) (orderbook : Depths)
    (btc_price_change_5min : Option ℚ) (outcome_label : Option String) : Option Signal :=
  if recent_trades.length < 10 then none
  else
    match resolvedCurrent current_price recent_trades with
    | none => none
    | some cp =>
        match refPrice cfg now recent_trades with
        | none => none
        | some p_ref =>
            if p_ref ≤ 0 then none
            else
              let move := (cp - p_ref) / p_ref
              if |move| < cfg.min_price_change then none
              else
                let sharp := sharpScore cfg |move|
                let fade := if move > 0 then "FADE_UP" else "FADE_DOWN"
                let bsc := btcScore cfg btc_price_change_5min
                let window := windowTradesUsed cfg now recent_trades
                let rsc := retailScore window
                let vsc := volScore cfg now recent_trades
                let osc := obScore orderbook
                let rsc2 := rsiScoreOf cfg window recent_prices
                let total := min (sharp + bsc + rsc + vsc + osc + rsc2) 100
                if cfg.min_score ≤ total then
                  some
                    { action := "BUY"
                      fade_direction := fade
                      recommended_outcome := recommendedOutcome fade outcome_label
                      confidence := total
                      score := total
                      expected_edge := (total : ℚ) / 100 * (6 / 100)
                      current_price := cp
                      price_change := move
                      sharp_score := sharp
                      btc_bonus := bsc
                      retail_bonus := rsc
                      vol_bonus := vsc
                      ob_bonus := osc
                      rsi_bonus := rsc2 }
                else none

/-- Complement of an outcome label as the specification words it: trim,
lower-case, then map up↔down and yes↔no (spec-side definition, compared with
the source-side `recommendedOutcome`). -/
def complementLabel (l : String) : Option String :=
  let lab := pyLower (pyStrip l)
  if lab = "up" then some "Down"
  else if lab = "down" then some "Up"
  else if lab = "yes" then some "No"
  else if lab = "no" then some "Yes"
  else none

/-- Test fixture: nine trades at price 0.56, size 10, inside the last five
minutes of `now = 1000`. -/
def w9 : List Trade :=
  [{ price := some (14/25), size := some 10, ts := some 710 },
   { price := some (14/25), size := some 10, ts := some 720 },
   { price := some (14/25), size := some 10, ts := some 730 },
   { price := some (14/25), size := some 10, ts := some 740 },
   { price := some (14/25), size := some 10, ts := some 750 },
   { price := some (14/25), size := some 10, ts := some 760 },
   { price := some (14/25), size := some 10, ts := some 770 },
   { price := some (14/25), size := some 10, ts := some 780 },
   { price := some (14/25), size := some 10, ts := some 790 }]

/-- Test fixture: a reference trade at price 0.50 just before the 5-minute
cutoff, followed by the trades of `w9` (10 trades in total). -/
def ctrades : List Trade :=
  { price := some (1/2), size := some 10, ts := some 600 } :: w9

/-- The detector configuration of claim C2: defaults except
`min_price_change = 0.05`. -/
def cfgC : DetConfig := { defaultDet with min_price_change := 1/20 }

/-- The signal `detect` emits on the C2 fixture (current price 0.56 against
reference 0.50, small BTC move): sharp-move 50 + BTC mismatch 20 +
retail 15 = 85. -/
def sigC : Signal :=
  { action := "BUY"
    fade_direction := "FADE_UP"
    recommended_outcome := some "Down"
    confidence := 85
    score := 85
    expected_edge := 51/1000
    current_price := 14/25
    price_change := 3/25
    sharp_score := 50
    btc_bonus := 20
    retail_bonus := 15
    vol_bonus := 0
    ob_bonus := 0
    rsi_bonus := 0 }

end Detector

namespace RiskManager

/-- Test fixture: five losing closes of $2 each from a fresh $1000 manager
(the consecutive-losses circuit-breaker scenario of the spec). -/
def runC1 : RiskState :=
  close_position (close_position (close_position (close_position (close_position
    (initState 1000) "a" (-2)) "b" (-2)) "c" (-2)) "d" (-2)) "e" (-2)

/-- Test fixture: five break-even closes (pnl exactly 0) from a fresh $1000
manager. -/
def runC9 : RiskState :=
  close_position (close_position (close_position (close_position (close_position
    (initState 1000) "a" 0) "b" 0) "c" 0) "d" 0) "e" 0

end RiskManager

namespace ExitManager

/-- Test fixture: a BUY position entered at 0.50, size 100, at time 0. -/
def posW : EPosition :=
  { entry_price := 1/2, entry_time := some 0, side := "BUY", size := 100 }

end ExitManager

namespace RegimeFilter

/-- Test fixture: a crossed order book (`best_ask < best_bid`), which yields
no valid mid. -/
def bookX : Book :=
  { best_bid := some (3/5), best_ask := some (2/5), bids := [], asks := []
    bid_depth := none, ask_depth := none }

/-- Test fixture: a second crossed order book. -/
def bookX2 : Book :=
  { best_bid := some (7/10), best_ask := some (3/10), bids := [], asks := []
    bid_depth := none, ask_depth := none }

/-- Test fixture: a healthy order book with mid 0.50. -/
def bookG : Book :=
  { best_bid := some (49/100), best_ask := some (51/100), bids := [], asks := []
    bid_depth := some 100, ask_depth := some 100 }

/-- Test fixture: a healthy order book with mid 0.70. -/
def bookG2 : Book :=
  { best_bid := some (69/100), best_ask := some (71/100), bids := [], asks := []
    bid_depth := some 100, ask_depth := some 100 }

/-- Test fixture: a binary market with tokens `t1`, `t2`. -/
def marketX : Market :=
  { token_ids := ["t1", "t2"], outcomes := ["Up", "Down"], slug := none }

/-- Test fixture: both tokens resolve to crossed books. -/
def getBookX : String → Option Book :=
  fun tid => if tid = "t1" then some bookX else if tid = "t2" then some bookX2 else none

/-- Test fixture: no order book can be fetched for any token. -/
def getBookNone : String → Option Book := fun _ => none

/-- Test fixture: `t1` has the 0.70 book, `t2` the 0.50 book. -/
def getBookG : String → Option Book :=
  fun tid => if tid = "t1" then some bookG2 else if tid = "t2" then some bookG else none

end RegimeFilter

namespace PositionSizer

/-- The regime adjustment recorded in the reasoning parts (`Regime adj`
appears only when a score below 1 was supplied). -/
def regAdj (regime_score : Option ℚ) : Option ℚ :=
  match regime_score with
  | some r => if r < 1 then some r else none
  | none => none

/-- Declarative form of the `caps_applied` list: each cap appears, in the
source's order, exactly when it strictly lowers the running size. -/
def capsListOf (cfg : SizerConfig) (edge confidence market_depth : ℚ)
    (regime_score : Option ℚ) : List Cap :=
  (if cfg.bankroll * cfg.max_position_pct < adjustedSize cfg edge confidence regime_score then
    [Cap.bankroll] else []) ++
  (if market_depth * cfg.max_depth_pct <
      min (adjustedSize cfg edge confidence regime_score)
        (cfg.bankroll * cfg.max_position_pct) then
    [Cap.depth] else []) ++
  (if cfg.max_trade_size <
      min (min (adjustedSize cfg edge confidence regime_score)
        (cfg.bankroll * cfg.max_position_pct)) (market_depth * cfg.max_depth_pct) then
    [Cap.maxTrade] else [])

end PositionSizer

namespace Detector

theorem refPrice_eval_C : refPrice cfgC 1000 ctrades = some (1/2) := by
  norm_num [refPrice, lastTradeBefore, ctrades, w9, cfgC, defaultDet]

theorem windowUsed_eval_C : windowTradesUsed cfgC 1000 ctrades = w9 := by
  norm_num [windowTradesUsed, windowTrades, ctrades, w9, cfgC, defaultDet, Indicators.lastN]

theorem retailScore_eval_C : retailScore w9 = 15 := by
  norm_num [retailScore, w9, notional, sortAsc, insertSorted, List.filterMap]

theorem volScore_eval_C : volScore cfgC 1000 ctrades = 0 := by
  norm_num [volScore, windowTrades, sumNotional, notional, ctrades, w9, cfgC, defaultDet,
    List.filterMap]

theorem rsiScore_eval_C : rsiScoreOf cfgC w9 [] = 0 := by
  norm_num [rsiScoreOf, w9, cfgC, defaultDet, List.filterMap, List.enum, List.enumFrom]

theorem sharpScore_eval_C : sharpScore cfgC (3/25) = 50 := by
  norm_num [sharpScore, cfgC, defaultDet]
  decide

theorem btcScore_eval_C : btcScore cfgC (some (1/1000)) = 20 := by
  norm_num [btcScore, btcMismatch, cfgC, defaultDet, abs_le]

theorem obScore_eval_C : obScore ⟨0, 0⟩ = 0 := by
  norm_num [obScore]

theorem recommended_eval_up : recommendedOutcome "FADE_UP" (some "Up") = some "Down" := by
  decide

theorem detect_eval_C :
    detect cfgC 1000 (some (14/25)) [] ctrades ⟨0, 0⟩ (some (1/1000)) (some "Up") = some sigC := by
  rw [detect, show resolvedCurrent (some (14/25)) ctrades = some (14/25) from rfl,
    refPrice_eval_C, show ctrades.length = 10 from rfl]
  simp only []
  rw [show ((14:ℚ)/25 - 1/2) / (1/2) = 3/25 by norm_num,
    show |(3:ℚ)/25| = 3/25 from abs_of_pos (by norm_num),
    show cfgC.min_price_change = 1/20 from rfl,
    show cfgC.min_score = 55 from rfl]
  simp only [windowUsed_eval_C, retailScore_eval_C, volScore_eval_C, rsiScore_eval_C,
    sharpScore_eval_C, btcScore_eval_C, obScore_eval_C]
  norm_num [recommended_eval_up, sigC]

theorem detect_gate_none {cfg : DetConfig} {now : ℚ} {cp : Option ℚ} {prices : List ℚ}
    {trades : List Trade} {ob : Depths} {btc : Option ℚ} {lab : Option String} {cpv prv : ℚ}
    (h1 : resolvedCurrent cp trades = some cpv)
    (h2 : refPrice cfg now trades = some prv)
    (h3 : |(cpv - prv) / prv| < cfg.min_price_change) :
    detect cfg now cp prices trades ob btc lab = none := by
  by_cases hlen : trades.length < 10
  · simp [detect, hlen]
  · simp only [detect, if_neg hlen, h1, h2]
    by_cases hp : prv ≤ 0
    · simp [hp]
    · simp [hp, h3]

theorem detect_emit {cfg : DetConfig} {now : ℚ} {cp : Option ℚ} {prices : List ℚ}
    {trades : List Trade} {ob : Depths} {btc : Option ℚ} {lab : Option String} {s : Signal}
    (h : detect cfg now cp prices trades ob btc lab = some s) :
    ∃ cpv prv, resolvedCurrent cp trades = some cpv ∧ refPrice cfg now trades = some prv ∧
      ¬ prv ≤ 0 ∧ ¬ |(cpv - prv) / prv| < cfg.min_price_change ∧
      s.price_change = (cpv - prv) / prv ∧ s.current_price = cpv ∧ s.action = "BUY" ∧
      s.fade_direction = (if (cpv - prv) / prv > 0 then "FADE_UP" else "FADE_DOWN") ∧
      s.sharp_score = sharpScore cfg |(cpv - prv) / prv| ∧
      s.recommended_outcome = recommendedOutcome s.fade_direction lab ∧
      cfg.min_score ≤ s.score := by
  simp only [detect] at h
  split at h
  · cases h
  split at h
  · cases h
  next cpv hres =>
  split at h
  · cases h
  next prv href =>
  split at h
  · cases h
  next hpos =>
  split at h
  · cases h
  next hgate =>
  split at h
  next hscore =>
    obtain rfl := (Option.some.inj h).symm
    exact ⟨cpv, prv, hres, href, hpos, hgate, rfl, rfl, rfl, rfl, rfl, rfl, hscore⟩
  · cases h

theorem sharpScore_eq_spec (cfg : DetConfig) (m : ℚ) :
    sharpScore cfg m =
      min (35 + 3 * (⌊(m - cfg.min_price_change) / (1/100)⌋).toNat) 50 := by
  unfold sharpScore
  generalize (⌊(m - cfg.min_price_change) / (1/100)⌋).toNat = k
  omega

theorem recommendedOutcome_eq_complement (f : String) (l : String) (hne : ¬ l = "") :
    recommendedOutcome f (some l) = complementLabel l := by
  unfold recommendedOutcome complementLabel
  simp only [if_neg hne]
  by_cases hf : f = "FADE_UP" <;>
    by_cases h1 : pyLower (pyStrip l) = "up" <;>
    by_cases h2 : pyLower (pyStrip l) = "yes" <;>
    by_cases h3 : pyLower (pyStrip l) = "down" <;>
    by_cases h4 : pyLower (pyStrip l) = "no" <;>
    simp_all

theorem recommendedOutcome_char (f : String) (lab : Option String) :
    recommendedOutcome f lab =
      (match lab with
        | none => none
        | some l => if l = "" then none else complementLabel l) := by
  match lab with
  | none => rfl
  | some l =>
    by_cases hne : l = ""
    · simp [recommendedOutcome, hne]
    · rw [recommendedOutcome_eq_complement f l hne]
      simp [hne]

end Detector

/-- C2: with a 5-minute move window and `min_price_change = 0.05`, any call of
`detect` whose analysed current price is 0.52 against a reference price of
0.50 (a 4% move) returns no signal; whenever such a call with current price
0.56 (a 12% move) emits a signal, its fade direction is `FADE_UP` and its
recommended outcome is the binary complement of the analysed outcome label;
and the 0.56 scenario does emit such a signal on a concrete input. -/
theorem C2_move_window_cases :
    (∀ (now : ℚ) (cp : Option ℚ) (prices : List ℚ) (trades : List Detector.Trade)
        (ob : Detector.Depths) (btc : Option ℚ) (lab : Option String),
        Detector.resolvedCurrent cp trades = some (13/25) →
        Detector.refPrice Detector.cfgC now trades = some (1/2) →
        Detector.detect Detector.cfgC now cp prices trades ob btc lab = none)
    ∧ (∀ (now : ℚ) (cp : Option ℚ) (prices : List ℚ) (trades : List Detector.Trade)
        (ob : Detector.Depths) (btc : Option ℚ) (lab : Option String) (s : Detector.Signal),
        Detector.resolvedCurrent cp trades = some (14/25) →
        Detector.refPrice Detector.cfgC now trades = some (1/2) →
        Detector.detect Detector.cfgC now cp prices trades ob btc lab = some s →
        s.fade_direction = "FADE_UP" ∧
        (lab = some "Up" → s.recommended_outcome = some "Down") ∧
        (lab = some "Down" → s.recommended_outcome = some "Up"))
    ∧ Detector.detect Detector.cfgC 1000 (some (14/25)) [] Detector.ctrades ⟨0, 0⟩
        (some (1/1000)) (some "Up") = some Detector.sigC
    ∧ Detector.sigC.fade_direction = "FADE_UP"
    ∧ Detector.sigC.recommended_outcome = some "Down" := by
  refine ⟨?_, ?_, Detector.detect_eval_C, rfl, rfl⟩
  · intro now cp prices trades ob btc lab h1 h2
    refine Detector.detect_gate_none h1 h2 ?_
    rw [show Detector.cfgC.min_price_change = 1/20 from rfl,
      show ((13:ℚ)/25 - 1/2) / (1/2) = 1/25 by norm_num,
      abs_of_pos (by norm_num : (0:ℚ) < 1/25)]
    norm_num
  · intro now cp prices trades ob btc lab s h1 h2 h
    obtain ⟨cpv, prv, hres, href, _, _, _, _, _, hfade, _, hrec, _⟩ := Detector.detect_emit h
    rw [h1] at hres
    rw [h2] at href
    obtain rfl := Option.some.inj hres
    obtain rfl := Option.some.inj href
    rw [if_pos (by norm_num : ((14:ℚ)/25 - (1:ℚ)/2) / ((1:ℚ)/2) > 0)] at hfade
    rw [hfade] at hrec
    refine ⟨hfade, ?_, ?_⟩
    · rintro rfl
      rw [hrec]
      decide
    · rintro rfl
      rw [hrec]
      decide

/-- C2 witness: the theorem's universal parts applied at concrete inputs: the
0.52 fixture returns no signal, and the emitted 0.56 signal has fade
direction `FADE_UP` and recommended outcome `"Down"` for label `"Up"`. -/
theorem C2_move_window_cases_witness :
    Detector.detect Detector.cfgC 1000 (some (13/25)) [] Detector.ctrades ⟨0, 0⟩ none none = none
    ∧ Detector.sigC.fade_direction = "FADE_UP"
    ∧ Detector.sigC.recommended_outcome = some "Down" :=
  ⟨C2_move_window_cases.1 1000 (some (13/25)) [] Detector.ctrades ⟨0, 0⟩ none none rfl
      Detector.refPrice_eval_C,
    (C2_move_window_cases.2.1 1000 (some (14/25)) [] Detector.ctrades ⟨0, 0⟩ (some (1/1000))
      (some "Up") Detector.sigC rfl Detector.refPrice_eval_C Detector.detect_eval_C).1,
    (C2_move_window_cases.2.1 1000 (some (14/25)) [] Detector.ctrades ⟨0, 0⟩ (some (1/1000))
      (some "Up") Detector.sigC rfl Detector.refPrice_eval_C Detector.detect_eval_C).2.1 rfl⟩

/-- C3: the sharp-move gate is the single hard gate of `detect`: whenever the
relative move from the reference price to the analysed current price is
strictly below `min_price_change` in magnitude, `detect` returns `none`
whatever the other inputs; and every emitted signal has move magnitude at
least `min_price_change`, base sharp-move score `min (35 + 3·⌊extra %⌋) 50`,
and fade direction `FADE_UP` exactly for a positive move, `FADE_DOWN`
otherwise. -/
theorem C3_sharp_move_hard_gate :
    (∀ (cfg : Detector.DetConfig) (now : ℚ) (cp : Option ℚ) (prices : List ℚ)
        (trades : List Detector.Trade) (ob : Detector.Depths) (btc : Option ℚ)
        (lab : Option String) (cpv prv : ℚ),
        Detector.resolvedCurrent cp trades = some cpv →
        Detector.refPrice cfg now trades = some prv →
        |(cpv - prv) / prv| < cfg.min_price_change →
        Detector.detect cfg now cp prices trades ob btc lab = none)
    ∧ (∀ (cfg : Detector.DetConfig) (now : ℚ) (cp : Option ℚ) (prices : List ℚ)
        (trades : List Detector.Trade) (ob : Detector.Depths) (btc : Option ℚ)
        (lab : Option String) (s : Detector.Signal),
        Detector.detect cfg now cp prices trades ob btc lab = some s →
        cfg.min_price_change ≤ |s.price_change| ∧
        s.sharp_score =
          min (35 + 3 * (⌊(|s.price_change| - cfg.min_price_change) / (1/100)⌋).toNat) 50 ∧
        s.fade_direction = (if 0 < s.price_change then "FADE_UP" else "FADE_DOWN")) := by
  constructor
  · intro cfg now cp prices trades ob btc lab cpv prv h1 h2 h3
    exact Detector.detect_gate_none h1 h2 h3
  · intro cfg now cp prices trades ob btc lab s h
    obtain ⟨cpv, prv, _, _, _, hgate, hpc, _, _, hfade, hsharp, _, _⟩ := Detector.detect_emit h
    refine ⟨?_, ?_, ?_⟩
    · rw [hpc]
      exact not_lt.mp hgate
    · rw [hsharp, hpc, Detector.sharpScore_eq_spec]
    · rw [hfade, hpc]

/-- C3 witness: the gate applied at a concrete 4% move (no signal), and the
spec-form sharp score and fade direction of the concrete emitted signal. -/
theorem C3_sharp_move_hard_gate_witness :
    Detector.detect Detector.cfgC 1000 (some (13/25)) [] Detector.ctrades ⟨5, 5⟩ none
      (some "x") = none
    ∧ Detector.cfgC.min_price_change ≤ |Detector.sigC.price_change|
    ∧ Detector.sigC.sharp_score =
        min (35 + 3 *
          (⌊(|Detector.sigC.price_change| - Detector.cfgC.min_price_change) / (1/100)⌋).toNat) 50
    ∧ Detector.sigC.fade_direction =
        (if 0 < Detector.sigC.price_change then "FADE_UP" else "FADE_DOWN") :=
  ⟨C3_sharp_move_hard_gate.1 Detector.cfgC 1000 (some (13/25)) [] Detector.ctrades ⟨5, 5⟩ none
      (some "x") (13/25) (1/2) rfl Detector.refPrice_eval_C
      (by
        rw [show Detector.cfgC.min_price_change = 1/20 from rfl,
          show ((13:ℚ)/25 - 1/2) / (1/2) = 1/25 by norm_num,
          abs_of_pos (by norm_num : (0:ℚ) < 1/25)]
        norm_num),
    (C3_sharp_move_hard_gate.2 Detector.cfgC 1000 (some (14/25)) [] Detector.ctrades ⟨0, 0⟩
      (some (1/1000)) (some "Up") Detector.sigC Detector.detect_eval_C).1,
    (C3_sharp_move_hard_gate.2 Detector.cfgC 1000 (some (14/25)) [] Detector.ctrades ⟨0, 0⟩
      (some (1/1000)) (some "Up") Detector.sigC Detector.detect_eval_C).2.1,
    (C3_sharp_move_hard_gate.2 Detector.cfgC 1000 (some (14/25)) [] Detector.ctrades ⟨0, 0⟩
      (some (1/1000)) (some "Up") Detector.sigC Detector.detect_eval_C).2.2⟩

/-- C10: every signal emitted by `detect` carries action `"BUY"` and a
recommended outcome that is the exact binary complement of the supplied
outcome label — matched case-insensitively after trimming, independent of the
fade direction — and `none` for an unrecognised or missing label; in
particular `"Up" ↦ "Down"`, `"down" ↦ "Up"`, `"YES" ↦ "No"`,
`" no " ↦ "Yes"`. -/
theorem C10_recommended_outcome_complement :
    ∀ (cfg : Detector.DetConfig) (now : ℚ) (cp : Option ℚ) (prices : List ℚ)
      (trades : List Detector.Trade) (ob : Detector.Depths) (btc : Option ℚ)
      (lab : Option String) (s : Detector.Signal),
      Detector.detect cfg now cp prices trades ob btc lab = some s →
      s.action = "BUY" ∧
      s.recommended_outcome =
        (match lab with
          | none => none
          | some l => if l = "" then none else Detector.complementLabel l) ∧
      (lab = some "Up" → s.recommended_outcome = some "Down") ∧
      (lab = some "down" → s.recommended_outcome = some "Up") ∧
      (lab = some "YES" → s.recommended_outcome = some "No") ∧
      (lab = some " no " → s.recommended_outcome = some "Yes") := by
  intro cfg now cp prices trades ob btc lab s h
  obtain ⟨_, _, _, _, _, _, _, _, hact, _, _, hrec, _⟩ := Detector.detect_emit h
  rw [Detector.recommendedOutcome_char] at hrec
  refine ⟨hact, hrec, ?_, ?_, ?_, ?_⟩ <;>
    · rintro rfl
      rw [hrec]
      decide

/-- C10 witness: the concrete emitted signal of the 0.56 fixture has action
`"BUY"` and recommended outcome `"Down"` for analysed label `"Up"`. -/
theorem C10_recommended_outcome_complement_witness :
    Detector.sigC.action = "BUY" ∧ Detector.sigC.recommended_outcome = some "Down" :=
  ⟨(C10_recommended_outcome_complement Detector.cfgC 1000 (some (14/25)) [] Detector.ctrades
      ⟨0, 0⟩ (some (1/1000)) (some "Up") Detector.sigC Detector.detect_eval_C).1,
    (C10_recommended_outcome_complement Detector.cfgC 1000 (some (14/25)) [] Detector.ctrades
      ⟨0, 0⟩ (some (1/1000)) (some "Up") Detector.sigC Detector.detect_eval_C).2.2.1 rfl⟩


namespace Indicators

theorem diffs_pos {l : List ℚ} (h : List.Chain' (· < ·) l) : ∀ d ∈ diffs l, 0 < d := by
  induction l with
  | nil => simp [diffs]
  | cons a t ih =>
    cases t with
    | nil => simp [diffs]
    | cons b t2 =>
      rw [List.chain'_cons] at h
      intro d hd
      simp only [diffs, List.mem_cons] at hd
      rcases hd with rfl | hd
      · linarith [h.1]
      · exact ih h.2 d hd

theorem calculate_rsi_of_mean_loss_zero (prices : List ℚ) (period : ℕ)
    (hlen : period + 1 ≤ prices.length)
    (h : mean (lastN period ((diffs prices).map fun d => if d < 0 then -d else 0)) = 0) :
    calculate_rsi prices period = 100 := by
  unfold calculate_rsi
  rw [if_neg (by omega : ¬ prices.length < period + 1)]
  simp only []
  rw [h]
  simp

end Indicators

namespace RiskManager

theorem check_breakers_fields (s : RiskState) :
    (check_circuit_breakers s).trade_history = s.trade_history ∧
    (check_circuit_breakers s).consecutive_losses = s.consecutive_losses ∧
    (check_circuit_breakers s).open_positions = s.open_positions ∧
    (check_circuit_breakers s).current_bankroll = s.current_bankroll ∧
    (check_circuit_breakers s).today_pnl = s.today_pnl := by
  unfold check_circuit_breakers
  split_ifs <;> exact ⟨rfl, rfl, rfl, rfl, rfl⟩

theorem check_breakers_paused_mono (s : RiskState) (h : s.trading_paused = true) :
    (check_circuit_breakers s).trading_paused = true := by
  unfold check_circuit_breakers
  split_ifs <;> first | rfl | exact h

end RiskManager

/-- C8: for any price series shorter than the required period, `calculate_atr`
returns 0 and `calculate_bollinger_bands` returns `(0, 0, 0)`;
`calculate_rsi` returns exactly 50 on fewer than `period + 1` samples,
returns exactly 100 whenever the mean loss over the last `period` deltas is
exactly 0, and in particular returns 100 on every strictly increasing series
of sufficient length. -/
theorem C8_indicator_defaults :
    (∀ (prices : List ℚ) (period : ℕ), prices.length < period →
      Indicators.calculate_atr prices period = 0)
    ∧ (∀ (prices : List ℚ) (period : ℕ) (std_dev : ℚ), prices.length < period →
      Indicators.calculate_bollinger_bands prices period std_dev = (0, 0, 0))
    ∧ (∀ (prices : List ℚ) (period : ℕ), prices.length < period + 1 →
      Indicators.calculate_rsi prices period = 50)
    ∧ (∀ (prices : List ℚ) (period : ℕ), period + 1 ≤ prices.length →
      Indicators.mean (Indicators.lastN period
        ((Indicators.diffs prices).map fun d => if d < 0 then -d else 0)) = 0 →
      Indicators.calculate_rsi prices period = 100)
    ∧ (∀ (prices : List ℚ) (period : ℕ), List.Chain' (· < ·) prices →
      period + 1 ≤ prices.length → Indicators.calculate_rsi prices period = 100) := by
  refine ⟨?_, ?_, ?_, Indicators.calculate_rsi_of_mean_loss_zero, ?_⟩
  · intro prices period h
    unfold Indicators.calculate_atr
    rw [if_pos h]
  · intro prices period std_dev h
    unfold Indicators.calculate_bollinger_bands
    rw [if_pos h]
  · intro prices period h
    unfold Indicators.calculate_rsi
    rw [if_pos h]
  · intro prices period hchain hlen
    apply Indicators.calculate_rsi_of_mean_loss_zero prices period hlen
    unfold Indicators.mean
    rw [List.sum_eq_zero, zero_div]
    intro x hx
    have hx' := List.drop_subset _ _ hx
    obtain ⟨d, hd, rfl⟩ := List.mem_map.mp hx'
    have hdp := Indicators.diffs_pos hchain d hd
    rw [if_neg (by linarith)]

/-- C8 witness: the defaults at concrete inputs: a 1-element series for ATR
and Bollinger bands, a 3-element series for RSI-50, and the strictly
increasing series `1..15` for RSI-100. -/
theorem C8_indicator_defaults_witness :
    Indicators.calculate_atr [1] 14 = 0
    ∧ Indicators.calculate_bollinger_bands [1] 20 2 = (0, 0, 0)
    ∧ Indicators.calculate_rsi [1, 2, 3] 14 = 50
    ∧ Indicators.calculate_rsi [1, 2] 1 = 100
    ∧ Indicators.calculate_rsi
        [1, 2, 3, 4, 5, 6, 7, 8, 9, 10, 11, 12, 13, 14, 15] 14 = 100 :=
  ⟨C8_indicator_defaults.1 [1] 14 (by norm_num),
    C8_indicator_defaults.2.1 [1] 20 2 (by norm_num),
    C8_indicator_defaults.2.2.1 [1, 2, 3] 14 (by norm_num),
    C8_indicator_defaults.2.2.2.1 [1, 2] 1 (by norm_num)
      (by norm_num [Indicators.mean, Indicators.lastN, Indicators.diffs]),
    C8_indicator_defaults.2.2.2.2 [1, 2, 3, 4, 5, 6, 7, 8, 9, 10, 11, 12, 13, 14, 15] 14
      (by norm_num [List.chain'_cons]) (by norm_num)⟩

/-- C9: `close_position` records a trade with pnl exactly 0 as a loss —
`False` is appended to the trade history and `consecutive_losses` is
incremented (a win needs pnl strictly greater than 0) — so five break-even
closes from a fresh manager trip the consecutive-losses circuit breaker. -/
theorem C9_break_even_counts_as_loss :
    (∀ (s : RiskManager.RiskState) (tid : String),
      (RiskManager.close_position s tid 0).trade_history = s.trade_history ++ [false] ∧
      (RiskManager.close_position s tid 0).consecutive_losses = s.consecutive_losses + 1)
    ∧ RiskManager.runC9.trading_paused = true
    ∧ RiskManager.runC9.consecutive_losses = 5 := by
  refine ⟨?_, ?_, ?_⟩
  · intro s tid
    unfold RiskManager.close_position
    simp only []
    rw [(RiskManager.check_breakers_fields _).1, (RiskManager.check_breakers_fields _).2.1]
    norm_num
  · norm_num [RiskManager.runC9, RiskManager.close_position,
      RiskManager.check_circuit_breakers, RiskManager.initState, RiskManager.dailyLossLimit,
      RiskManager.winRate]
  · norm_num [RiskManager.runC9, RiskManager.close_position,
      RiskManager.check_circuit_breakers, RiskManager.initState, RiskManager.dailyLossLimit,
      RiskManager.winRate]

/-- C9 witness: the universal part applied at a concrete state: a break-even
close from the fresh $1000 manager appends `false` and sets the streak to 1. -/
theorem C9_break_even_counts_as_loss_witness :
    (RiskManager.close_position (RiskManager.initState 1000) "a" 0).trade_history = [false]
    ∧ (RiskManager.close_position (RiskManager.initState 1000) "a" 0).consecutive_losses = 1 :=
  ⟨(C9_break_even_counts_as_loss.1 (RiskManager.initState 1000) "a").1,
    (C9_break_even_counts_as_loss.1 (RiskManager.initState 1000) "a").2⟩

namespace RiskManager

theorem runC1_eval :
    runC1 =
      { starting_bankroll := 1000, current_bankroll := 990, daily_loss_limit_pct := 5/100
        max_concurrent := 3, max_consecutive_losses := 5, min_win_rate := 40/100
        min_trades_for_wr := 20, open_positions := [], today_start_bankroll := 1000
        today_pnl := -10, consecutive_losses := 5
        trade_history := [false, false, false, false, false], trading_paused := true
        pause_reason := some .consecutiveLosses } := by
  norm_num [runC1, close_position, check_circuit_breakers, initState, dailyLossLimit, winRate]

end RiskManager

/-- C1 (amended): once `close_position` raises `consecutive_losses` to the
configured maximum the circuit breaker pauses trading, and every subsequent
`can_open_position` call returns `allowed = false` regardless of the proposed
size, with the pause preserved by further `open_position`/`close_position`
calls; `reset_daily()` clears only the pause flag, and because
`can_open_position` independently re-checks the surviving
`consecutive_losses` counter, a proposal compliant with the remaining checks
is `allowed = true` after `reset_daily()` exactly when `consecutive_losses`
is again below the maximum — while the streak is still at the maximum the
block persists even after `reset_daily()`. -/
theorem C1_consecutive_loss_breaker :
    (∀ (s : RiskManager.RiskState) (sz : ℚ), s.trading_paused = true →
      (RiskManager.can_open_position s sz).allowed = false)
    ∧ (∀ (s : RiskManager.RiskState) (p : RiskManager.Position),
      (RiskManager.open_position s p).trading_paused = s.trading_paused)
    ∧ (∀ (s : RiskManager.RiskState) (tid : String) (pnl : ℚ), s.trading_paused = true →
      (RiskManager.close_position s tid pnl).trading_paused = true)
    ∧ (∀ (s : RiskManager.RiskState) (tid : String) (pnl : ℚ), ¬ 0 < pnl →
      s.max_consecutive_losses ≤ s.consecutive_losses + 1 →
      (RiskManager.close_position s tid pnl).trading_paused = true)
    ∧ (∀ (s : RiskManager.RiskState) (sz : ℚ),
      s.max_consecutive_losses ≤ s.consecutive_losses →
      (RiskManager.can_open_position (RiskManager.reset_daily s) sz).allowed = false)
    ∧ (∀ (s : RiskManager.RiskState) (sz : ℚ),
      s.consecutive_losses < s.max_consecutive_losses →
      s.open_positions.length < s.max_concurrent →
      0 < s.current_bankroll * s.daily_loss_limit_pct →
      (s.min_trades_for_wr ≤ s.trade_history.length →
        s.min_win_rate ≤ RiskManager.winRate s) →
      sz ≤ s.current_bankroll * (1/2) →
      (RiskManager.can_open_position (RiskManager.reset_daily s) sz).allowed = true) := by
  refine ⟨?_, ?_, ?_, ?_, ?_, ?_⟩
  · intro s sz h
    unfold RiskManager.can_open_position
    rw [if_pos h]
  · intro s p
    rfl
  · intro s tid pnl h
    unfold RiskManager.close_position
    exact RiskManager.check_breakers_paused_mono _ h
  · intro s tid pnl hpnl hmax
    unfold RiskManager.close_position
    simp only [show (decide (pnl > 0)) = false by simp [hpnl], Bool.false_eq_true, if_false]
    unfold RiskManager.check_circuit_breakers
    simp only []
    split_ifs with h1
    · rfl
    · rfl
  · intro s sz h
    unfold RiskManager.can_open_position RiskManager.reset_daily
    simp only []
    rw [if_neg (by simp)]
    have hc : decide (s.consecutive_losses < s.max_consecutive_losses) = false := by
      simp [not_lt.mpr h]
    simp [hc]
  · intro s sz h1 h2 h3 h4 h5
    unfold RiskManager.can_open_position RiskManager.reset_daily RiskManager.dailyLossLimit
    simp only []
    rw [if_neg (by simp)]
    simp only [Bool.and_eq_true, decide_eq_true_eq]
    refine ⟨⟨⟨⟨?_, ?_⟩, ?_⟩, ?_⟩, ?_⟩
    · intro hle
      nlinarith
    · exact h2
    · exact h1
    · split_ifs with hw
      · simpa using not_lt.mpr (h4 hw)
      · rfl
    · exact not_lt.mpr h5

/-- C1 counterexample: after five losing closes trip the consecutive-losses
breaker, `reset_daily()` clears the pause flag and leaves a state that
satisfies the claim's "remaining checks" (no open positions, zero daily pnl,
size 20 well under 50% of the $990 bankroll) — yet `can_open_position`
still returns `allowed = false`, because check 4 re-checks the surviving
`consecutive_losses` counter. -/
theorem C1_consecutive_loss_breaker_cex :
    RiskManager.runC1.trading_paused = true
    ∧ (RiskManager.can_open_position RiskManager.runC1 20).allowed = false
    ∧ (RiskManager.reset_daily RiskManager.runC1).trading_paused = false
    ∧ (RiskManager.reset_daily RiskManager.runC1).today_pnl = 0
    ∧ (RiskManager.reset_daily RiskManager.runC1).open_positions.length <
        (RiskManager.reset_daily RiskManager.runC1).max_concurrent
    ∧ (20:ℚ) ≤ (RiskManager.reset_daily RiskManager.runC1).current_bankroll * (1/2)
    ∧ (RiskManager.can_open_position (RiskManager.reset_daily RiskManager.runC1) 20).allowed
        = false := by
  rw [RiskManager.runC1_eval]
  norm_num [RiskManager.can_open_position, RiskManager.reset_daily,
    RiskManager.dailyLossLimit, RiskManager.winRate]

/-- C1 witness: the amended theorem applied at concrete states — the tripped
manager is blocked before and after `reset_daily`, a close at the edge of the
streak trips the breaker, and a fresh manager is allowed after a daily
reset. -/
theorem C1_consecutive_loss_breaker_witness :
    (RiskManager.can_open_position RiskManager.runC1 20).allowed = false
    ∧ (RiskManager.can_open_position (RiskManager.reset_daily RiskManager.runC1) 20).allowed
        = false
    ∧ (RiskManager.close_position
        { RiskManager.initState 1000 with consecutive_losses := 4 } "z" (-1)).trading_paused
        = true
    ∧ (RiskManager.can_open_position (RiskManager.reset_daily (RiskManager.initState 1000))
        20).allowed = true :=
  ⟨C1_consecutive_loss_breaker.1 RiskManager.runC1 20 (by rw [RiskManager.runC1_eval]),
    C1_consecutive_loss_breaker.2.2.2.2.1 RiskManager.runC1 20
      (by rw [RiskManager.runC1_eval]),
    C1_consecutive_loss_breaker.2.2.2.1
      { RiskManager.initState 1000 with consecutive_losses := 4 } "z" (-1)
      (by norm_num) (by exact le_rfl),
    C1_consecutive_loss_breaker.2.2.2.2.2 (RiskManager.initState 1000) 20
      (by norm_num [RiskManager.initState]) (by norm_num [RiskManager.initState])
      (by norm_num [RiskManager.initState])
      (fun h => absurd h (by norm_num [RiskManager.initState]))
      (by norm_num [RiskManager.initState])⟩

/-- C7: `check_exit` is an ordered first-match decision list, so every
position that is simultaneously past `max_hold_seconds` and at or above
`take_profit_pct` exits with the take-profit (or, if it also breaches the
stop, the stop-loss) reason at priority 1 — never with the lower-priority
mean-reversion, regime-break or time-pressure reasons. -/
theorem C7_exit_priority_order :
    ∀ (cfg : ExitManager.ExitConfig) (pos : ExitManager.EPosition)
      (current_price current_time : ℚ) (btc_atr : Option ℚ),
      cfg.max_hold_seconds ≤ ExitManager.holdTime pos current_time →
      cfg.take_profit_pct ≤ ExitManager.pnlPct pos current_price →
      (ExitManager.check_exit cfg pos current_price current_time btc_atr).should_exit = true
      ∧ (ExitManager.check_exit cfg pos current_price current_time btc_atr).priority = some 1
      ∧ ((ExitManager.check_exit cfg pos current_price current_time btc_atr).reason =
          some (.takeProfit (ExitManager.pnlPct pos current_price))
        ∨ (ExitManager.check_exit cfg pos current_price current_time btc_atr).reason =
          some (.stopLoss (ExitManager.pnlPct pos current_price))) := by
  intro cfg pos current_price current_time btc_atr hhold hpp
  unfold ExitManager.check_exit
  simp only []
  by_cases hsl : ExitManager.pnlPct pos current_price ≤ -cfg.stop_loss_pct
  · rw [if_pos hsl]
    exact ⟨rfl, rfl, Or.inr rfl⟩
  · rw [if_neg hsl, if_pos hpp]
    exact ⟨rfl, rfl, Or.inl rfl⟩

/-- C7 witness: a BUY position entered at 0.50 held for 1000 s (past the
480 s max) and now at 0.53 (+6%, above the 4% take-profit) exits with the
take-profit reason at priority 1. -/
theorem C7_exit_priority_order_witness :
    (ExitManager.check_exit ExitManager.defaultExit ExitManager.posW (53/100) 1000
        none).should_exit = true
    ∧ (ExitManager.check_exit ExitManager.defaultExit ExitManager.posW (53/100) 1000
        none).priority = some 1
    ∧ ((ExitManager.check_exit ExitManager.defaultExit ExitManager.posW (53/100) 1000
        none).reason = some (.takeProfit (ExitManager.pnlPct ExitManager.posW (53/100)))
      ∨ (ExitManager.check_exit ExitManager.defaultExit ExitManager.posW (53/100) 1000
        none).reason = some (.stopLoss (ExitManager.pnlPct ExitManager.posW (53/100)))) :=
  C7_exit_priority_order ExitManager.defaultExit ExitManager.posW (53/100) 1000 none
    (by norm_num [ExitManager.holdTime, ExitManager.posW, ExitManager.defaultExit])
    (by norm_num [ExitManager.pnlPct, ExitManager.posW, ExitManager.defaultExit])

namespace PositionSizer

theorem ite_gt_min (a b : ℚ) : (if a > b then b else a) = min a b := by
  rcases le_or_lt a b with h | h
  · rw [if_neg (not_lt.mpr h), min_eq_left h]
  · rw [if_pos h, min_eq_right h.le]

theorem calculate_size_eval (cfg : SizerConfig) (edge confidence market_depth : ℚ)
    (rs : Option ℚ) :
    calculate_size cfg edge confidence market_depth rs =
      (if cappedSize cfg edge confidence market_depth rs < cfg.min_trade_size then
        { size := 0, final_size := 0, tradeable := false
          reasoning := .belowMin (cappedSize cfg edge confidence market_depth rs)
          kelly_size := kellySize cfg edge confidence
          size_pct_bankroll := 0, size_pct_depth := 0
          caps_applied := capsListOf cfg edge confidence market_depth rs }
      else
        { size := cappedSize cfg edge confidence market_depth rs
          final_size := cappedSize cfg edge confidence market_depth rs
          tradeable := true
          reasoning := .parts (kellySize cfg edge confidence) (regAdj rs)
            (capsListOf cfg edge confidence market_depth rs)
          kelly_size := kellySize cfg edge confidence
          size_pct_bankroll := cappedSize cfg edge confidence market_depth rs / cfg.bankroll * 100
          size_pct_depth :=
            if market_depth > 0 then
              cappedSize cfg edge confidence market_depth rs / market_depth * 100
            else 0
          caps_applied := capsListOf cfg edge confidence market_depth rs }) := by
  unfold calculate_size cappedSize capsListOf adjustedSize kellySize regimeMult regAdj
  simp only [ite_gt_min, List.append_assoc]

theorem final_size_eq (cfg : SizerConfig) (edge confidence market_depth : ℚ) (rs : Option ℚ) :
    (calculate_size cfg edge confidence market_depth rs).final_size =
      if cappedSize cfg edge confidence market_depth rs < cfg.min_trade_size then 0
      else cappedSize cfg edge confidence market_depth rs := by
  rw [calculate_size_eval]
  split_ifs with h <;> rfl

theorem tradeable_iff (cfg : SizerConfig) (edge confidence market_depth : ℚ) (rs : Option ℚ) :
    (calculate_size cfg edge confidence market_depth rs).tradeable = true ↔
      ¬ cappedSize cfg edge confidence market_depth rs < cfg.min_trade_size := by
  rw [calculate_size_eval]
  split_ifs with h <;> simp [h]

theorem cappedSize_mono (cfg : SizerConfig) (edge confidence : ℚ) (rs : Option ℚ)
    {d1 d2 : ℚ} (hpct : 0 ≤ cfg.max_depth_pct) (hd : d1 ≤ d2) :
    cappedSize cfg edge confidence d1 rs ≤ cappedSize cfg edge confidence d2 rs := by
  unfold cappedSize
  exact min_le_min (min_le_min le_rfl (mul_le_mul_of_nonneg_right hd hpct)) le_rfl

end PositionSizer

/-- C4: `calculate_size` applies its three hard caps in the order bankroll
percentage, market-depth percentage, absolute maximum, recording in
`caps_applied` (in that order) exactly the caps that strictly lower the
running size; when the capped size falls below `min_trade_size` the result is
`tradeable = false` with size 0 and the below-minimum reason, and otherwise
`tradeable = true` with `final_size` equal to the capped size, the
percentage-of-bankroll and percentage-of-depth fields, and a reasoning record
naming the applied caps. -/
theorem C4_caps_order_and_minimum :
    ∀ (cfg : PositionSizer.SizerConfig) (edge confidence market_depth : ℚ) (rs : Option ℚ),
      (PositionSizer.calculate_size cfg edge confidence market_depth rs).caps_applied =
        PositionSizer.capsListOf cfg edge confidence market_depth rs
      ∧ (PositionSizer.calculate_size cfg edge confidence market_depth rs).kelly_size =
        PositionSizer.kellySize cfg edge confidence
      ∧ (PositionSizer.cappedSize cfg edge confidence market_depth rs < cfg.min_trade_size →
        (PositionSizer.calculate_size cfg edge confidence market_depth rs).tradeable = false
        ∧ (PositionSizer.calculate_size cfg edge confidence market_depth rs).final_size = 0
        ∧ (PositionSizer.calculate_size cfg edge confidence market_depth rs).size = 0
        ∧ (PositionSizer.calculate_size cfg edge confidence market_depth rs).reasoning =
          .belowMin (PositionSizer.cappedSize cfg edge confidence market_depth rs))
      ∧ (¬ PositionSizer.cappedSize cfg edge confidence market_depth rs < cfg.min_trade_size →
        (PositionSizer.calculate_size cfg edge confidence market_depth rs).tradeable = true
        ∧ (PositionSizer.calculate_size cfg edge confidence market_depth rs).final_size =
          PositionSizer.cappedSize cfg edge confidence market_depth rs
        ∧ (PositionSizer.calculate_size cfg edge confidence market_depth rs).size_pct_bankroll =
          PositionSizer.cappedSize cfg edge confidence market_depth rs / cfg.bankroll * 100
        ∧ (PositionSizer.calculate_size cfg edge confidence market_depth rs).size_pct_depth =
          (if market_depth > 0 then
            PositionSizer.cappedSize cfg edge confidence market_depth rs / market_depth * 100
          else 0)
        ∧ (PositionSizer.calculate_size cfg edge confidence market_depth rs).reasoning =
          .parts (PositionSizer.kellySize cfg edge confidence) (PositionSizer.regAdj rs)
            (PositionSizer.capsListOf cfg edge confidence market_depth rs)) := by
  intro cfg edge confidence market_depth rs
  rw [PositionSizer.calculate_size_eval]
  by_cases h : PositionSizer.cappedSize cfg edge confidence market_depth rs < cfg.min_trade_size
  · rw [if_pos h]
    exact ⟨rfl, rfl, fun _ => ⟨rfl, rfl, rfl, rfl⟩, fun hc => absurd h hc⟩
  · rw [if_neg h]
    exact ⟨rfl, rfl, fun hc => absurd hc h, fun _ => ⟨rfl, rfl, rfl, rfl, rfl⟩⟩

/-- C4 witness: the theorem applied with $1000 bankroll, 5% edge, 75%
confidence, $300 depth and perfect regime: only the depth cap triggers, the
result is tradeable with final size $15. -/
theorem C4_caps_order_and_minimum_witness :
    (PositionSizer.calculate_size (PositionSizer.defaultSizer 1000) (1/20) (3/4) 300
        (some 1)).caps_applied = [PositionSizer.Cap.depth]
    ∧ (PositionSizer.calculate_size (PositionSizer.defaultSizer 1000) (1/20) (3/4) 300
        (some 1)).tradeable = true
    ∧ (PositionSizer.calculate_size (PositionSizer.defaultSizer 1000) (1/20) (3/4) 300
        (some 1)).final_size = 15 := by
  have h := C4_caps_order_and_minimum (PositionSizer.defaultSizer 1000) (1/20) (3/4) 300 (some 1)
  have hc : PositionSizer.cappedSize (PositionSizer.defaultSizer 1000) (1/20) (3/4) 300
      (some 1) = 15 := by
    norm_num [PositionSizer.cappedSize, PositionSizer.adjustedSize, PositionSizer.kellySize,
      PositionSizer.regimeMult, PositionSizer.defaultSizer]
  have hm := h.2.2.2 (by rw [hc]; norm_num [PositionSizer.defaultSizer])
  refine ⟨?_, hm.1, ?_⟩
  · rw [h.1]
    norm_num [PositionSizer.capsListOf, PositionSizer.adjustedSize, PositionSizer.kellySize,
      PositionSizer.regimeMult, PositionSizer.defaultSizer]
  · rw [hm.2.1, hc]

/-- C5: holding edge, confidence, regime score and bankroll fixed,
`final_size` is monotonically non-decreasing in `market_depth`; and whenever
a tradeable result at some depth `d2` exceeds `d1 · max_depth_pct` (so the
depth cap binds at the smaller depth `d1`), the final size at `d1` equals
`d1 · max_depth_pct` — strictly and proportionally smaller. -/
theorem C5_depth_monotonicity :
    (∀ (cfg : PositionSizer.SizerConfig) (edge confidence : ℚ) (rs : Option ℚ) (d1 d2 : ℚ),
      0 < cfg.min_trade_size → 0 ≤ cfg.max_depth_pct → d1 ≤ d2 →
      (PositionSizer.calculate_size cfg edge confidence d1 rs).final_size ≤
        (PositionSizer.calculate_size cfg edge confidence d2 rs).final_size)
    ∧ (∀ (cfg : PositionSizer.SizerConfig) (edge confidence : ℚ) (rs : Option ℚ) (d1 d2 : ℚ),
      (PositionSizer.calculate_size cfg edge confidence d2 rs).tradeable = true →
      d1 * cfg.max_depth_pct <
        (PositionSizer.calculate_size cfg edge confidence d2 rs).final_size →
      cfg.min_trade_size ≤ d1 * cfg.max_depth_pct →
      (PositionSizer.calculate_size cfg edge confidence d1 rs).final_size =
        d1 * cfg.max_depth_pct
      ∧ (PositionSizer.calculate_size cfg edge confidence d1 rs).final_size <
        (PositionSizer.calculate_size cfg edge confidence d2 rs).final_size) := by
  constructor
  · intro cfg edge confidence rs d1 d2 hmin hpct hd
    rw [PositionSizer.final_size_eq, PositionSizer.final_size_eq]
    have hmono := PositionSizer.cappedSize_mono cfg edge confidence rs hpct hd
    by_cases h1 : PositionSizer.cappedSize cfg edge confidence d1 rs < cfg.min_trade_size <;>
      by_cases h2 : PositionSizer.cappedSize cfg edge confidence d2 rs < cfg.min_trade_size
    · rw [if_pos h1, if_pos h2]
    · rw [if_pos h1, if_neg h2]
      linarith
    · exfalso
      exact h1 (lt_of_le_of_lt hmono h2)
    · rw [if_neg h1, if_neg h2]
      exact hmono
  · intro cfg edge confidence rs d1 d2 ht hd1 hm
    have h2 := (PositionSizer.tradeable_iff cfg edge confidence d2 rs).mp ht
    have hf2 : (PositionSizer.calculate_size cfg edge confidence d2 rs).final_size =
        PositionSizer.cappedSize cfg edge confidence d2 rs := by
      rw [PositionSizer.final_size_eq, if_neg h2]
    rw [hf2] at hd1
    have hAB : PositionSizer.cappedSize cfg edge confidence d2 rs ≤
        min (PositionSizer.adjustedSize cfg edge confidence rs)
          (cfg.bankroll * cfg.max_position_pct) :=
      le_trans (min_le_left _ _) (min_le_left _ _)
    have hM : PositionSizer.cappedSize cfg edge confidence d2 rs ≤ cfg.max_trade_size :=
      min_le_right _ _
    have hc1 : PositionSizer.cappedSize cfg edge confidence d1 rs = d1 * cfg.max_depth_pct := by
      unfold PositionSizer.cappedSize
      rw [min_eq_right (le_of_lt (lt_of_lt_of_le hd1 hAB)),
        min_eq_left (le_of_lt (lt_of_lt_of_le hd1 hM))]
    have hf1 : (PositionSizer.calculate_size cfg edge confidence d1 rs).final_size =
        d1 * cfg.max_depth_pct := by
      rw [PositionSizer.final_size_eq, hc1, if_neg (not_lt.mpr hm)]
    refine ⟨hf1, ?_⟩
    rw [hf1, hf2]
    exact hd1

/-- C5 witness: the theorem applied with $1000 bankroll, 5% edge, 75%
confidence: between depths $300 and $5000 the final size is non-decreasing,
and at depth $300 the depth cap binds with final size exactly
`300 · 5% = $15`, strictly below the $18.75 obtained at depth $5000. -/
theorem C5_depth_monotonicity_witness :
    ((PositionSizer.calculate_size (PositionSizer.defaultSizer 1000) (1/20) (3/4) 300
        (some 1)).final_size ≤
      (PositionSizer.calculate_size (PositionSizer.defaultSizer 1000) (1/20) (3/4) 5000
        (some 1)).final_size)
    ∧ (PositionSizer.calculate_size (PositionSizer.defaultSizer 1000) (1/20) (3/4) 300
        (some 1)).final_size = 300 * (PositionSizer.defaultSizer 1000).max_depth_pct
    ∧ (PositionSizer.calculate_size (PositionSizer.defaultSizer 1000) (1/20) (3/4) 300
        (some 1)).final_size <
      (PositionSizer.calculate_size (PositionSizer.defaultSizer 1000) (1/20) (3/4) 5000
        (some 1)).final_size := by
  have hcap : PositionSizer.cappedSize (PositionSizer.defaultSizer 1000) (1/20) (3/4) 5000
      (some 1) = 75/4 := by
    norm_num [PositionSizer.cappedSize, PositionSizer.adjustedSize, PositionSizer.kellySize,
      PositionSizer.regimeMult, PositionSizer.defaultSizer]
  have hf2 : (PositionSizer.calculate_size (PositionSizer.defaultSizer 1000) (1/20) (3/4) 5000
      (some 1)).final_size = 75/4 := by
    rw [PositionSizer.final_size_eq, hcap]
    norm_num [PositionSizer.defaultSizer]
  have ht2 : (PositionSizer.calculate_size (PositionSizer.defaultSizer 1000) (1/20) (3/4) 5000
      (some 1)).tradeable = true := by
    rw [PositionSizer.tradeable_iff, hcap]
    norm_num [PositionSizer.defaultSizer]
  have hpart := C5_depth_monotonicity.2 (PositionSizer.defaultSizer 1000) (1/20) (3/4)
    (some 1) 300 5000 ht2
    (by rw [hf2]; norm_num [PositionSizer.defaultSizer])
    (by norm_num [PositionSizer.defaultSizer])
  exact ⟨C5_depth_monotonicity.1 (PositionSizer.defaultSizer 1000) (1/20) (3/4) (some 1)
      300 5000 (by norm_num [PositionSizer.defaultSizer])
      (by norm_num [PositionSizer.defaultSizer]) (by norm_num),
    hpart.1, hpart.2⟩

namespace RegimeFilter

theorem hasInfix_append (s pat t : List Char) (h : hasInfix t pat = true) :
    hasInfix (s ++ t) pat = true := by
  induction s with
  | nil => simpa using h
  | cons c cs ih => simp [hasInfix, ih]

theorem lowerChars_append (s t : String) :
    lowerChars (s ++ t) = lowerChars s ++ lowerChars t := by
  cases s with
  | mk ds =>
    cases t with
    | mk dt =>
      show (String.mk (ds ++ dt)).data.map Char.toLower = _
      simp [lowerChars]

theorem containsIC_append_right (s t pat : String) (h : containsIC t pat = true) :
    containsIC (s ++ t) pat = true := by
  unfold containsIC at *
  rw [lowerChars_append]
  exact hasInfix_append _ _ _ h

theorem containsIC_marker : containsIC " | No valid orderbook" "no valid orderbook" = true := by
  decide

theorem computeSpreads_depths (book : Book) (x y : Option ℚ) :
    computeSpreads { book with bid_depth := x, ask_depth := y } = computeSpreads book := rfl

theorem check_regime_ok_false_of_no_mid (cfg : RegimeConfig) (btc_prices : List ℚ)
    (book : Book) (h : (computeSpreads book).mid = none) :
    (check_regime cfg btc_prices book).regime_ok = false := by
  unfold check_regime
  simp [h]

end RegimeFilter

namespace RegimeFilter

theorem pick_both_valid (getBook : String → Option Book) (market : Market) (t1 t2 : String)
    (b1 b2 : Book) (m1 m2 : ℚ)
    (ht : market.token_ids = [t1, t2])
    (h1 : getBook t1 = some b1) (h2 : getBook t2 = some b2)
    (hm1 : (computeSpreads b1).mid = some m1) (hm2 : (computeSpreads b2).mid = some m2) :
    (|m1 - 1/2| < |m2 - 1/2| →
      ((pick_tradable_outcome getBook market (1/2)).selected.map Candidate.token_id) = some t1)
    ∧ (|m2 - 1/2| < |m1 - 1/2| →
      ((pick_tradable_outcome getBook market (1/2)).selected.map Candidate.token_id) = some t2) := by
  unfold pick_tradable_outcome
  rw [ht]
  simp only [List.take, List.length, List.enum, List.enumFrom, List.map, h1, h2, hm1, hm2]
  norm_num
  constructor
  · intro hlt
    rw [if_neg (not_lt.mpr hlt.le)]
  · intro hlt
    rw [if_pos hlt]

theorem pick_one_valid (getBook : String → Option Book) (market : Market) (t1 t2 : String)
    (b1 b2 : Book) (m2 : ℚ)
    (ht : market.token_ids = [t1, t2])
    (h1 : getBook t1 = some b1) (h2 : getBook t2 = some b2)
    (hm1 : (computeSpreads b1).mid = none) (hm2 : (computeSpreads b2).mid = some m2) :
    ((pick_tradable_outcome getBook market (1/2)).selected.map Candidate.token_id) = some t2 := by
  unfold pick_tradable_outcome
  rw [ht]
  simp only [List.take, List.length, List.enum, List.enumFrom, List.map, h1, h2, hm1, hm2]
  norm_num

theorem pick_one_valid_fst (getBook : String → Option Book) (market : Market) (t1 t2 : String)
    (b1 b2 : Book) (m1 : ℚ)
    (ht : market.token_ids = [t1, t2])
    (h1 : getBook t1 = some b1) (h2 : getBook t2 = some b2)
    (hm1 : (computeSpreads b1).mid = some m1) (hm2 : (computeSpreads b2).mid = none) :
    ((pick_tradable_outcome getBook market (1/2)).selected.map Candidate.token_id) = some t1 := by
  unfold pick_tradable_outcome
  rw [ht]
  simp only [List.take, List.length, List.enum, List.enumFrom, List.map, h1, h2, hm1, hm2]
  norm_num

theorem market_fetch_none_path (cfg : RegimeConfig) (btc_prices : List ℚ)
    (getBook : String → Option Book) (market : Market) (t1 t2 : String)
    (ht : market.token_ids = [t1, t2])
    (h1 : getBook t1 = none) (h2 : getBook t2 = none) :
    (check_regime_market cfg btc_prices getBook market).result.regime_ok = false
    ∧ containsIC (((check_regime_market cfg btc_prices getBook market).result.reason).getD "")
        "no valid orderbook" = true := by
  unfold check_regime_market pick_tradable_outcome
  rw [ht]
  simp only [List.take, List.length, List.enum, List.enumFrom, List.map, h1, h2]
  norm_num
  constructor
  · exact check_regime_ok_false_of_no_mid cfg btc_prices _ rfl
  · exact containsIC_append_right _ _ _ containsIC_marker

theorem market_invalid_books_path (cfg : RegimeConfig) (btc_prices : List ℚ)
    (getBook : String → Option Book) (market : Market) (t1 t2 : String) (b1 b2 : Book)
    (ht : market.token_ids = [t1, t2])
    (h1 : getBook t1 = some b1) (h2 : getBook t2 = some b2)
    (hm1 : (computeSpreads b1).mid = none) (hm2 : (computeSpreads b2).mid = none) :
    (check_regime_market cfg btc_prices getBook market).result.regime_ok = false := by
  unfold check_regime_market pick_tradable_outcome
  rw [ht]
  simp only [List.take, List.length, List.enum, List.enumFrom, List.map, h1, h2, hm1, hm2]
  norm_num
  apply check_regime_ok_false_of_no_mid
  rw [computeSpreads_depths]
  exact hm1

theorem mid_bookX : (computeSpreads bookX).mid = none := by
  norm_num [computeSpreads, bestBidAsk, normalizePrice, bookX]

theorem mid_bookX2 : (computeSpreads bookX2).mid = none := by
  norm_num [computeSpreads, bestBidAsk, normalizePrice, bookX2]

theorem spread_bookX : (computeSpreads bookX).spread_abs = none := by
  norm_num [computeSpreads, bestBidAsk, normalizePrice, bookX]

theorem mid_bookG : (computeSpreads bookG).mid = some (1/2) := by
  norm_num [computeSpreads, bestBidAsk, normalizePrice, bookG]

theorem mid_bookG2 : (computeSpreads bookG2).mid = some (7/10) := by
  norm_num [computeSpreads, bestBidAsk, normalizePrice, bookG2]

theorem cex_eval :
    containsIC (((check_regime_market defaultRegime [] getBookX marketX).result.reason).getD "")
        "no valid orderbook" = false := by
  have hb1 : getBookX "t1" = some bookX := rfl
  have hb2 : getBookX "t2" = some bookX2 := rfl
  unfold check_regime_market pick_tradable_outcome
  norm_num [marketX, List.enum, List.enumFrom, hb1, hb2, mid_bookX, mid_bookX2]
  unfold check_regime
  rw [computeSpreads_depths]
  norm_num [mid_bookX, spread_bookX, depthFromLevels,
    show bookX.bid_depth = none from rfl, show bookX.ask_depth = none from rfl,
    show bookX.bids = ([] : List Level) from rfl, show bookX.asks = ([] : List Level) from rfl]
  decide

end RegimeFilter

/-- C6 (amended): when both outcome tokens fetch order books with a valid mid
(best bid and ask present, not crossed), token selection picks the token
whose mid is strictly closest to 0.50; a token whose book yields no valid mid
is excluded from selection whenever the other token has one; when no book can
be fetched for either token, the regime evaluation returns
`regime_ok = false` with a reason containing "No valid orderbook"; and when
books are fetched for both tokens but neither yields a valid mid, the
evaluation still returns `regime_ok = false` (through the ordinary failed
checks, without that phrase — see the counterexample). -/
theorem C6_token_selection_and_fallback :
    (∀ (getBook : String → Option RegimeFilter.Book) (market : RegimeFilter.Market)
        (t1 t2 : String) (b1 b2 : RegimeFilter.Book) (m1 m2 : ℚ),
      market.token_ids = [t1, t2] →
      getBook t1 = some b1 → getBook t2 = some b2 →
      (RegimeFilter.computeSpreads b1).mid = some m1 →
      (RegimeFilter.computeSpreads b2).mid = some m2 →
      (|m1 - 1/2| < |m2 - 1/2| →
        ((RegimeFilter.pick_tradable_outcome getBook market (1/2)).selected.map
          RegimeFilter.Candidate.token_id) = some t1)
      ∧ (|m2 - 1/2| < |m1 - 1/2| →
        ((RegimeFilter.pick_tradable_outcome getBook market (1/2)).selected.map
          RegimeFilter.Candidate.token_id) = some t2))
    ∧ (∀ (getBook : String → Option RegimeFilter.Book) (market : RegimeFilter.Market)
        (t1 t2 : String) (b1 b2 : RegimeFilter.Book) (m2 : ℚ),
      market.token_ids = [t1, t2] →
      getBook t1 = some b1 → getBook t2 = some b2 →
      (RegimeFilter.computeSpreads b1).mid = none →
      (RegimeFilter.computeSpreads b2).mid = some m2 →
      ((RegimeFilter.pick_tradable_outcome getBook market (1/2)).selected.map
        RegimeFilter.Candidate.token_id) = some t2)
    ∧ (∀ (getBook : String → Option RegimeFilter.Book) (market : RegimeFilter.Market)
        (t1 t2 : String) (b1 b2 : RegimeFilter.Book) (m1 : ℚ),
      market.token_ids = [t1, t2] →
      getBook t1 = some b1 → getBook t2 = some b2 →
      (RegimeFilter.computeSpreads b1).mid = some m1 →
      (RegimeFilter.computeSpreads b2).mid = none →
      ((RegimeFilter.pick_tradable_outcome getBook market (1/2)).selected.map
        RegimeFilter.Candidate.token_id) = some t1)
    ∧ (∀ (cfg : RegimeFilter.RegimeConfig) (btc_prices : List ℚ)
        (getBook : String → Option RegimeFilter.Book) (market : RegimeFilter.Market)
        (t1 t2 : String),
      market.token_ids = [t1, t2] → getBook t1 = none → getBook t2 = none →
      (RegimeFilter.check_regime_market cfg btc_prices getBook market).result.regime_ok = false
      ∧ RegimeFilter.containsIC
          (((RegimeFilter.check_regime_market cfg btc_prices getBook market).result.reason).getD
            "") "no valid orderbook" = true)
    ∧ (∀ (cfg : RegimeFilter.RegimeConfig) (btc_prices : List ℚ)
        (getBook : String → Option RegimeFilter.Book) (market : RegimeFilter.Market)
        (t1 t2 : String) (b1 b2 : RegimeFilter.Book),
      market.token_ids = [t1, t2] →
      getBook t1 = some b1 → getBook t2 = some b2 →
      (RegimeFilter.computeSpreads b1).mid = none →
      (RegimeFilter.computeSpreads b2).mid = none →
      (RegimeFilter.check_regime_market cfg btc_prices getBook market).result.regime_ok
        = false) :=
  ⟨RegimeFilter.pick_both_valid, RegimeFilter.pick_one_valid, RegimeFilter.pick_one_valid_fst,
    RegimeFilter.market_fetch_none_path, RegimeFilter.market_invalid_books_path⟩

/-- C6 counterexample: with both books fetched but crossed (no valid mid),
`check_regime_market` still returns `regime_ok = false`, but its reason does
NOT contain the claimed "no valid orderbook" phrase — the fail-safe branch is
only taken when a book is missing entirely. -/
theorem C6_token_selection_and_fallback_cex :
    (RegimeFilter.computeSpreads RegimeFilter.bookX).mid = none
    ∧ (RegimeFilter.computeSpreads RegimeFilter.bookX2).mid = none
    ∧ (RegimeFilter.check_regime_market RegimeFilter.defaultRegime [] RegimeFilter.getBookX
        RegimeFilter.marketX).result.regime_ok = false
    ∧ RegimeFilter.containsIC
        (((RegimeFilter.check_regime_market RegimeFilter.defaultRegime [] RegimeFilter.getBookX
          RegimeFilter.marketX).result.reason).getD "") "no valid orderbook" = false :=
  ⟨RegimeFilter.mid_bookX, RegimeFilter.mid_bookX2,
    RegimeFilter.market_invalid_books_path RegimeFilter.defaultRegime [] RegimeFilter.getBookX
      RegimeFilter.marketX "t1" "t2" RegimeFilter.bookX RegimeFilter.bookX2 rfl rfl rfl
      RegimeFilter.mid_bookX RegimeFilter.mid_bookX2,
    RegimeFilter.cex_eval⟩

/-- C6 witness: the amended theorem applied at concrete inputs — with mids
0.70 and 0.50 the 0.50 token is selected; with one crossed book the valid
token is selected; and with no fetchable books the regime fails with the
"No valid orderbook" reason. -/
theorem C6_token_selection_and_fallback_witness :
    ((RegimeFilter.pick_tradable_outcome RegimeFilter.getBookG RegimeFilter.marketX
        (1/2)).selected.map RegimeFilter.Candidate.token_id) = some "t2"
    ∧ ((RegimeFilter.pick_tradable_outcome
        (fun tid => if tid = "t1" then some RegimeFilter.bookX else some RegimeFilter.bookG)
        RegimeFilter.marketX (1/2)).selected.map RegimeFilter.Candidate.token_id) = some "t2"
    ∧ (RegimeFilter.check_regime_market RegimeFilter.defaultRegime [] RegimeFilter.getBookNone
        RegimeFilter.marketX).result.regime_ok = false
    ∧ RegimeFilter.containsIC
        (((RegimeFilter.check_regime_market RegimeFilter.defaultRegime []
          RegimeFilter.getBookNone RegimeFilter.marketX).result.reason).getD "")
        "no valid orderbook" = true
    ∧ (RegimeFilter.check_regime_market RegimeFilter.defaultRegime [] RegimeFilter.getBookX
        RegimeFilter.marketX).result.regime_ok = false :=
  ⟨(C6_token_selection_and_fallback.1 RegimeFilter.getBookG RegimeFilter.marketX "t1" "t2"
      RegimeFilter.bookG2 RegimeFilter.bookG (7/10) (1/2) rfl rfl rfl RegimeFilter.mid_bookG2
      RegimeFilter.mid_bookG).2 (by norm_num),
    C6_token_selection_and_fallback.2.1
      (fun tid => if tid = "t1" then some RegimeFilter.bookX else some RegimeFilter.bookG)
      RegimeFilter.marketX "t1" "t2" RegimeFilter.bookX RegimeFilter.bookG (1/2) rfl rfl rfl
      RegimeFilter.mid_bookX RegimeFilter.mid_bookG,
    (C6_token_selection_and_fallback.2.2.2.1 RegimeFilter.defaultRegime []
      RegimeFilter.getBookNone RegimeFilter.marketX "t1" "t2" rfl rfl rfl).1,
    (C6_token_selection_and_fallback.2.2.2.1 RegimeFilter.defaultRegime []
      RegimeFilter.getBookNone RegimeFilter.marketX "t1" "t2" rfl rfl rfl).2,
    C6_token_selection_and_fallback.2.2.2.2 RegimeFilter.defaultRegime []
      RegimeFilter.getBookX RegimeFilter.marketX "t1" "t2" RegimeFilter.bookX
      RegimeFilter.bookX2 rfl rfl rfl RegimeFilter.mid_bookX RegimeFilter.mid_bookX2⟩
